import Mathlib

/-!
# Verification of the MCP-SERVER orchestration loop and provider executors

Shallow embedding of the parts of the repository that the claims concern:

* `src/controllers/chatController.js` — `handleMCPResponse` (planner decision
  handling, validation, auth checks, the multi-step loop, response envelopes)
  and `classifyQueryWithAI` (the classifier fallback path);
* `src/mcp/servers/gmail-server.js` — `executeWithRetry`, `clearCache`, and the
  `CallToolRequestSchema` handler (tool switch plus error-to-result wrapping);
* `src/mcp/servers/teams-server.js` — `executeGraphAPICall`, `clearCache`,
  `sendMessage` (chat resolution and implicit chat creation), and its
  `CallToolRequestSchema` handler;
* `src/mcp/client/mcp-client.js` — `callTool` provider dispatch.

JavaScript strings are Lean `String`s, absent/null string values are
`Option String`, and JS truthiness tests on them go through explicit helpers.
The Gemini planner and the per-tool provider methods are nondeterministic
from the controller's point of view and are passed in as oracle functions.
-/

namespace MCPServer

/-! ## JavaScript value helpers -/

/-- Truthiness of a possibly-absent JS string (`undefined`, `null` and `""`
are falsy). -/
def jsTruthy : Option String → Bool
  | none => false
  | some s => s != ""

/-- JS `s.startsWith(p)` (written over the character lists so that it
computes by kernel reduction). -/
def jsStartsWith (s p : String) : Bool :=
  p.data.isPrefixOf s.data

/-- JS `s.toLowerCase()`. -/
def jsToLower (s : String) : String :=
  ⟨s.data.map Char.toLower⟩

/-- JS `s.trim()`: strip whitespace from both ends. -/
def jsTrim (s : String) : String :=
  ⟨((s.data.dropWhile Char.isWhitespace).reverse.dropWhile
      Char.isWhitespace).reverse⟩

/-- The test `!x || x.trim() === ''` used by the controller's content
validation (and by `sendMessage` on the Teams server). -/
def jsBlank : Option String → Bool
  | none => true
  | some s => jsTrim s == ""

/-- Containment of one character list in another, contiguously. -/
def listIsInfixOf (needle : List Char) : List Char → Bool
  | [] => needle.isPrefixOf []
  | c :: t => needle.isPrefixOf (c :: t) || listIsInfixOf needle t

/-- JS `hay.includes(needle)` (substring containment). -/
def jsIncludes (hay needle : String) : Bool :=
  listIsInfixOf needle.data hay.data

/-- JS `x || d` for a possibly-absent string `x` with default `d`. -/
def jsOrStr : Option String → String → String
  | none, d => d
  | some s, d => if s == "" then d else s

/-! ## Data model of the orchestration loop (`handleMCPResponse`)

The planner decision JSON parsed from Gemini, the user's provider tokens,
and the response envelopes returned through `res.json`.  Envelope fields
that the claims never mention (`response` text, `reasoning`, `rawData`,
`toolName`) are omitted; `steps` mirrors the `steps`/`executedSteps` array
where the code includes it. -/

structure ToolArgs where
  body : Option String := none
  message : Option String := none
  deriving DecidableEq, Repr

structure Decision where
  needsTool : Bool := false
  toolName : String := ""
  toolArgs : ToolArgs := {}
  requiresNextStep : Bool := false
  nextStepDescription : Option String := none
  deriving DecidableEq, Repr

structure Tokens where
  googleAccessToken : Option String := none
  microsoftAccessToken : Option String := none
  deriving DecidableEq, Repr

/-- One dispatched `mcpClient.callTool(provider, toolName, ...)` invocation. -/
structure ToolCall where
  provider : String
  name : String
  deriving DecidableEq, Repr

/-- Outcome of asking Gemini for the next step of a multi-step chain:
either the response failed to parse as JSON, or it parsed to a decision. -/
inductive NextStepOutcome where
  | parseFail
  | decision (d : Decision)

/-- The slice of the `res.json` envelope that the claims talk about. -/
structure ChatResponse where
  success : Bool
  mode : String
  authRequired : Option String := none
  steps : List String := []
  totalSteps : Option Nat := none
  deriving DecidableEq, Repr

/-- Result of `handleMCPResponse` for one parsed decision: the envelope sent
to the caller together with the trace of tool calls actually dispatched to
`mcpClient.callTool`. -/
structure MCPOutcome where
  response : ChatResponse
  dispatched : List ToolCall
  deriving DecidableEq, Repr

/-! ## Provider server tool results -/

/-- Payload of the JSON object a server's catch-all wraps a thrown error in:
`{ error: true, message, tool }`. -/
structure ErrPayload where
  error : Bool
  message : String
  tool : String
  deriving DecidableEq, Repr

/-- A `content` item of a tool result.  All items the servers produce are
`{ type: 'text', text: <serialized JSON> }`; we keep the serialized error
object distinguishable from ordinary serialized data. -/
inductive TextItem where
  | json (raw : String)
  | errJson (p : ErrPayload)
  deriving DecidableEq, Repr

/-- A tool result as returned by a server's `CallToolRequestSchema` handler. -/
structure ToolResult where
  content : List TextItem
  isError : Bool := false
  deriving DecidableEq, Repr

/-! ## The server-side tool switch (`setupTools` in both servers)

Both servers route a call by `switch (name)` over their declared tool
names, throw `Unknown tool: <name>` in the `default` case, and catch every
error — from the switch or from the tool method — turning it into an
ordinary result with `isError: true` and a single text item holding
`{ error: true, message, tool }`.  The individual tool methods are the
oracle `impl` (they may throw, i.e. return `.error`). -/

def gmailToolNames : List String :=
  ["gmail_list_messages", "gmail_list_by_category", "gmail_get_message",
   "gmail_search_messages", "gmail_send_message", "gmail_reply_to_message",
   "gmail_get_thread", "gmail_modify_labels", "gmail_trash_message",
   "gmail_delete_message", "gmail_list_labels", "gmail_get_profile",
   "gmail_create_draft", "gmail_list_drafts", "gmail_send_draft",
   "gmail_delete_draft", "gmail_update_draft", "gmail_create_label",
   "gmail_update_label", "gmail_delete_label", "gmail_get_or_create_label",
   "gmail_create_filter", "gmail_list_filters", "gmail_get_filter",
   "gmail_delete_filter", "gmail_create_filter_from_template"]

def teamsToolNames : List String :=
  ["teams_list_chats", "teams_find_chat_by_name", "teams_list_messages",
   "teams_create_one_on_one_chat", "teams_send_message", "teams_list_teams",
   "teams_list_channels", "teams_get_channel_messages",
   "teams_post_channel_message", "teams_search_messages",
   "teams_list_calendars", "teams_list_calendar_events",
   "teams_get_calendar_event", "teams_create_calendar_event",
   "teams_update_calendar_event", "teams_delete_calendar_event",
   "teams_get_user_profile"]

/-- A server's `CallToolRequestSchema` handler: `try { switch ... } catch`. -/
def serverCallTool (toolNames : List String)
    (impl : String → Except String ToolResult) (name : String) : ToolResult :=
  match (if toolNames.contains name then impl name
         else .error ("Unknown tool: " ++ name)) with
  | .ok r => r
  | .error msg =>
      { content := [.errJson { error := true, message := msg, tool := name }],
        isError := true }

/-- The MCP client's `callTool`: routes to the matching server (whose handler
never throws) and throws itself for an unimplemented provider. -/
def mcpCallTool (gmailImpl teamsImpl : String → Except String ToolResult)
    (provider name : String) : Except String ToolResult :=
  if provider == "gmail" then .ok (serverCallTool gmailToolNames gmailImpl name)
  else if provider == "teams" then .ok (serverCallTool teamsToolNames teamsImpl name)
  else .error ("Provider " ++ provider ++ " not implemented yet")

/-- `mcpCallTool` as an executor over a `ToolCall`. -/
def mcpExec (gmailImpl teamsImpl : String → Except String ToolResult)
    (c : ToolCall) : Except String ToolResult :=
  mcpCallTool gmailImpl teamsImpl c.provider c.name

/-! ## The orchestration loop -/

/-- The `MAX_STEPS` safety bound of `handleMCPResponse`. -/
def MAX_STEPS : Nat := 5

/-- Provider chosen for a step: by tool-name prefix, else the primary
provider the request was routed with. -/
def stepProvider (primaryProvider name : String) : String :=
  if jsStartsWith name "gmail_" then "gmail"
  else if jsStartsWith name "teams_" then "teams"
  else primaryProvider

/-- Post-loop formatting: a multi-step chain reports `mcp_multi_step` with
the step list and count, a single step reports `mcp`. -/
def finishLoop (steps : List String) (disp : List ToolCall) : MCPOutcome :=
  if 1 < steps.length then
    ⟨{ success := true, mode := "mcp_multi_step", steps := steps,
       totalSteps := some steps.length }, disp⟩
  else
    ⟨{ success := true, mode := "mcp", steps := steps }, disp⟩

/-- The envelope of the outer `catch (toolError)` branch (note the code
returns `success: true` there, unlike the validation errors). -/
def catchResponse : ChatResponse := { success := true, mode := "error" }

/-- The `while` loop of `handleMCPResponse`.  `planner i` is Gemini's
next-step answer when `executedSteps.length = i`; `exec` is
`mcpClient.callTool` (a throw from it lands in the outer catch).  The
first argument is structural fuel; the loop guard re-enters planning only
while `executedSteps.length < MAX_STEPS`, so any fuel of at least
`MAX_STEPS - steps.length` gives the same result (`runLoop_fuel_ge`), and
the entry point passes `MAX_STEPS`. -/
def runLoop (primaryProvider : String) (tokens : Tokens)
    (exec : ToolCall → Except String ToolResult)
    (planner : Nat → NextStepOutcome) :
    Nat → Decision → List String → List ToolCall → MCPOutcome
  | 0, _, steps, disp => finishLoop steps disp
  | fuel + 1, cur, steps, disp =>
    if cur.requiresNextStep && jsTruthy cur.nextStepDescription
        && decide (steps.length < MAX_STEPS) then
      match planner steps.length with
      | .parseFail =>
          ⟨{ success := true, mode := "partial", steps := steps }, disp⟩
      | .decision nd =>
          if nd.needsTool && nd.toolName != "" then
            if jsStartsWith nd.toolName "gmail_"
                && !(jsTruthy tokens.googleAccessToken) then
              ⟨{ success := false, mode := "auth_required",
                 authRequired := some "google", steps := steps }, disp⟩
            else if jsStartsWith nd.toolName "teams_"
                && !(jsTruthy tokens.microsoftAccessToken) then
              ⟨{ success := false, mode := "auth_required",
                 authRequired := some "microsoft", steps := steps }, disp⟩
            else
              let call : ToolCall :=
                ⟨stepProvider primaryProvider nd.toolName, nd.toolName⟩
              match exec call with
              | .error _ => ⟨catchResponse, disp ++ [call]⟩
              | .ok _ =>
                  runLoop primaryProvider tokens exec planner fuel nd
                    (steps ++ [nd.toolName]) (disp ++ [call])
          else
            finishLoop steps disp
    else
      finishLoop steps disp

/-- `handleMCPResponse` on one parsed planner decision: content validation
for the three mutating tools, per-provider auth checks, the initial
dispatch, then the multi-step loop. -/
def handleDecision (primaryProvider : String) (tokens : Tokens)
    (exec : ToolCall → Except String ToolResult)
    (planner : Nat → NextStepOutcome) (decision : Decision) : MCPOutcome :=
  if decision.needsTool && decision.toolName != "" then
    if decision.toolName == "gmail_send_message"
        && jsBlank decision.toolArgs.body then
      ⟨{ success := false, mode := "error" }, []⟩
    else if (decision.toolName == "teams_send_message"
          || decision.toolName == "teams_post_channel_message")
        && jsBlank decision.toolArgs.message then
      ⟨{ success := false, mode := "error" }, []⟩
    else if jsStartsWith decision.toolName "gmail_"
        && !(jsTruthy tokens.googleAccessToken) then
      ⟨{ success := false, mode := "auth_required",
         authRequired := some "google" }, []⟩
    else if jsStartsWith decision.toolName "teams_"
        && !(jsTruthy tokens.microsoftAccessToken) then
      ⟨{ success := false, mode := "auth_required",
         authRequired := some "microsoft" }, []⟩
    else
      let call : ToolCall :=
        ⟨stepProvider primaryProvider decision.toolName, decision.toolName⟩
      match exec call with
      | .error _ => ⟨catchResponse, [call]⟩
      | .ok _ =>
          runLoop primaryProvider tokens exec planner MAX_STEPS decision
            [decision.toolName] [call]
  else
    ⟨{ success := true, mode := "standard" }, []⟩

/-! ## Provider executors: retry logic and caches

`executeWithRetry` (gmail-server.js) and `executeGraphAPICall`
(teams-server.js).  One provider call is a script `call : Nat → ApiOutcome`
giving the outcome of attempt number `retryCount`; the executor returns the
terminal result, the list of backoff delays it slept (in ms, in order), and
the cache state after the call.  The source guards every retry with
`retryCount < MAX_RETRIES`, so the recursion is written structurally on
`remaining = MAX_RETRIES - retryCount`, which the entry points establish. -/

/-- Outcome of one attempt of a provider API call: success, or a thrown
error carrying a status code and message. -/
inductive ApiOutcome where
  | ok
  | fail (status : Nat) (msg : String)

structure GmailCache where
  labels : Option String := none
  labelsExpiry : Nat := 0
  profile : Option String := none
  profileExpiry : Nat := 0
  deriving DecidableEq, Repr

/-- The state `clearCache` resets the Gmail cache to (its initial state). -/
def emptyGmailCache : GmailCache := {}

structure TeamsCache where
  chats : Option String := none
  chatsExpiry : Nat := 0
  teams : Option String := none
  teamsExpiry : Nat := 0
  user : Option String := none
  userExpiry : Nat := 0
  deriving DecidableEq, Repr

/-- The state `clearCache` resets the Teams cache to (its initial state). -/
def emptyTeamsCache : TeamsCache := {}

def MAX_RETRIES : Nat := 10
def RETRY_DELAY_MS : Nat := 1000
def RATE_LIMIT_DELAY_MS : Nat := 5000

instance {ε α : Type} [DecidableEq ε] [DecidableEq α] :
    DecidableEq (Except ε α) := fun a b =>
  match a, b with
  | .ok x, .ok y =>
      if h : x = y then isTrue (by rw [h]) else isFalse (by simp [h])
  | .error x, .error y =>
      if h : x = y then isTrue (by rw [h]) else isFalse (by simp [h])
  | .ok _, .error _ => isFalse (by simp)
  | .error _, .ok _ => isFalse (by simp)

/-- Result of a retried provider call: terminal outcome, slept backoff
delays in order, and the cache after the call. -/
structure RetryTrace (Cache : Type) where
  result : Except String Unit
  delays : List Nat
  cache : Cache
  deriving DecidableEq, Repr

/-- The non-retried tail of `executeWithRetry`: statuses 401/403/404/400 get
user-facing messages (401 also clears the cache), anything else the generic
message. -/
def gmailTerminal (status : Nat) (msg : String) (cache : GmailCache) :
    RetryTrace GmailCache :=
  if status == 401 then
    ⟨.error "Your Google session has expired. Please sign in again.", [],
     emptyGmailCache⟩
  else if status == 403 then
    ⟨.error "You don\x27t have permission to access this Gmail resource. Please check your permissions.",
     [], cache⟩
  else if status == 404 then
    ⟨.error "The requested email or resource was not found.", [], cache⟩
  else if status == 400 then
    ⟨.error ("Invalid request: " ++ msg), [], cache⟩
  else
    ⟨.error ("Gmail API error: " ++
      (if msg == "" then "Unknown error occurred" else msg)), [], cache⟩

/-- Recursion of `executeWithRetry`, structural on
`remaining = MAX_RETRIES - retryCount` (the source tests
`retryCount < MAX_RETRIES`, equivalent to `0 < remaining`). -/
def gmailRetryAux (call : Nat → ApiOutcome) :
    Nat → Nat → GmailCache → RetryTrace GmailCache
  | 0, retryCount, cache =>
    match call retryCount with
    | .ok => ⟨.ok (), [], cache⟩
    | .fail status msg =>
      if status == 429 then
        ⟨.error "Gmail API rate limit exceeded. Please try again later.",
         [], cache⟩
      else gmailTerminal status msg cache
  | r + 1, retryCount, cache =>
    match call retryCount with
    | .ok => ⟨.ok (), [], cache⟩
    | .fail status msg =>
      if status == 429 then
        let d := RATE_LIMIT_DELAY_MS * 2 ^ retryCount
        let t := gmailRetryAux call r (retryCount + 1) cache
        ⟨t.result, d :: t.delays, t.cache⟩
      else
        if status == 503 || status == 500 then
          let d := RETRY_DELAY_MS * 2 ^ retryCount
          let t := gmailRetryAux call r (retryCount + 1) cache
          ⟨t.result, d :: t.delays, t.cache⟩
        else gmailTerminal status msg cache

/-- `executeWithRetry(apiCall, retryCount)` of gmail-server.js. -/
def executeWithRetry (call : Nat → ApiOutcome) (retryCount : Nat)
    (cache : GmailCache) : RetryTrace GmailCache :=
  gmailRetryAux call (MAX_RETRIES - retryCount) retryCount cache

/-- The non-retried tail of `executeGraphAPICall`. -/
def teamsTerminal (status : Nat) (msg : String) (cache : TeamsCache) :
    RetryTrace TeamsCache :=
  if status == 401 then
    ⟨.error "Your Microsoft session has expired. Please sign in again.", [],
     emptyTeamsCache⟩
  else if status == 403 then
    ⟨.error "You don\x27t have permission to access this resource. Please check your permissions.",
     [], cache⟩
  else if status == 404 then
    ⟨.error "The requested resource was not found.", [], cache⟩
  else if status == 400 then
    ⟨.error ("Invalid request: " ++ msg), [], cache⟩
  else
    ⟨.error ("Microsoft Graph API error: " ++
      (if msg == "" then "Unknown error occurred" else msg)), [], cache⟩

/-- Recursion of `executeGraphAPICall`, structural on
`remaining = MAX_RETRIES - retryCount`.  `retryAfter i` is the parsed
`retry-after` header (in seconds) of attempt `i` when the 429 response
carries one. -/
def teamsRetryAux (call : Nat → ApiOutcome) (retryAfter : Nat → Option Nat) :
    Nat → Nat → TeamsCache → RetryTrace TeamsCache
  | 0, retryCount, cache =>
    match call retryCount with
    | .ok => ⟨.ok (), [], cache⟩
    | .fail status msg =>
      if status == 429 then
        ⟨.error "Microsoft Teams API rate limit exceeded. Please try again later.",
         [], cache⟩
      else teamsTerminal status msg cache
  | r + 1, retryCount, cache =>
    match call retryCount with
    | .ok => ⟨.ok (), [], cache⟩
    | .fail status msg =>
      if status == 429 then
        let d := match retryAfter retryCount with
          | some ra => ra * 1000
          | none => RATE_LIMIT_DELAY_MS * 2 ^ retryCount
        let t := teamsRetryAux call retryAfter r (retryCount + 1) cache
        ⟨t.result, d :: t.delays, t.cache⟩
      else
        if status == 503 || status == 504 then
          let d := RETRY_DELAY_MS * 2 ^ retryCount
          let t := teamsRetryAux call retryAfter r (retryCount + 1) cache
          ⟨t.result, d :: t.delays, t.cache⟩
        else teamsTerminal status msg cache

/-- `executeGraphAPICall(accessToken, ..., retryCount)` of teams-server.js
(the Graph request construction is abstracted into the attempt script; a
missing access token throws before any attempt). -/
def executeGraphAPICall (accessToken : Option String)
    (call : Nat → ApiOutcome) (retryAfter : Nat → Option Nat)
    (retryCount : Nat) (cache : TeamsCache) : RetryTrace TeamsCache :=
  if !jsTruthy accessToken then
    ⟨.error "Access token is required. Please sign in with Microsoft.", [],
     cache⟩
  else
    teamsRetryAux call retryAfter (MAX_RETRIES - retryCount) retryCount cache

/-! ## Teams `sendMessage`: chat resolution and implicit creation

Model of `sendMessage` in teams-server.js.  Graph reads are drawn from a
`GraphEnv` snapshot (`/me/joinedTeams`, `/teams/{id}/channels`,
`/me/chats?$expand=members`, `/users/{email}`, `/me`); the message POSTs
themselves succeed.  The result records which channel or chat the message
went to and whether a new chat was created; the member bindings and
`chatType` of a newly created chat are not observed by the result. -/

structure Member where
  displayName : Option String := none
  email : Option String := none
  deriving DecidableEq, Repr

structure ChatInfo where
  id : String
  topic : Option String := none
  chatType : String := ""
  members : List Member := []
  deriving DecidableEq, Repr

structure ChannelInfo where
  id : String
  displayName : String
  deriving DecidableEq, Repr

structure TeamInfo where
  id : String
  displayName : String
  channels : List ChannelInfo := []
  deriving DecidableEq, Repr

structure GraphUser where
  email : String
  userId : String
  deriving DecidableEq, Repr

structure GraphEnv where
  chats : List ChatInfo := []
  teams : List TeamInfo := []
  users : List GraphUser := []
  meId : String := "me"
  newChatId : String := "new-chat"
  deriving DecidableEq, Repr

structure ParticipantRef where
  email : Option String := none
  deriving DecidableEq, Repr

structure SendMessageArgs where
  teamName : Option String := none
  chatId : Option String := none
  chatName : Option String := none
  participantName : Option String := none
  participantEmail : Option String := none
  participants : List ParticipantRef := []
  message : Option String := none
  deriving DecidableEq, Repr

inductive SendResult where
  | channelMessage (team channel : String)
  | chatMessage (chatId : String) (createdNewChat : Bool)
  deriving DecidableEq, Repr

/-- The member test of the participant search:
`(m.displayName && m.displayName.toLowerCase().includes(searchTerm)) ||
(m.email && m.email.toLowerCase().includes(searchTerm))`. -/
def memberMatches (searchTerm : String) (m : Member) : Bool :=
  (match m.displayName with
   | some dn => dn != "" && jsIncludes (jsToLower dn) searchTerm
   | none => false)
  || (match m.email with
      | some e => e != "" && jsIncludes (jsToLower e) searchTerm
      | none => false)

/-- `c.members?.some(m => ...)` over a chat. -/
def chatHasParticipant (searchTerm : String) (c : ChatInfo) : Bool :=
  c.members.any (memberMatches searchTerm)

/-- JS `list.join(', ') || 'none'`. -/
def joinOrNone (names : List String) : String :=
  let j := String.intercalate ", " names
  if j == "" then "none" else j

/-- `sendMessage(args)` of teams-server.js. -/
def sendMessage (env : GraphEnv) (accessToken : Option String)
    (args : SendMessageArgs) : Except String SendResult :=
  if !jsTruthy accessToken then .error "Access token is required"
  else if jsBlank args.message then .error "Message content is required"
  else if jsTruthy args.teamName then
    let tn := jsOrStr args.teamName ""
    match env.teams.find? (fun t => jsToLower t.displayName == jsToLower tn) with
    | none =>
        .error ("Team \"" ++ tn ++ "\" not found. Available teams: " ++
          joinOrNone (env.teams.map (·.displayName)))
    | some team =>
        match (team.channels.find? (fun c => c.displayName == "General")
              ).orElse (fun _ => team.channels.head?) with
        | none => .error ("No channels found in team \"" ++ tn ++ "\"")
        | some channel => .ok (.channelMessage team.displayName channel.displayName)
  else
    let resolved : Except String (Option String) :=
      if !jsTruthy args.chatId
          && (jsTruthy args.chatName || jsTruthy args.participantName
              || jsTruthy args.participantEmail) then
        if jsTruthy args.chatName && !jsTruthy args.participantName
            && !jsTruthy args.participantEmail then
          let searchTerm := jsTrim (jsToLower (jsOrStr args.chatName ""))
          match env.chats.find? (fun c =>
              match c.topic with
              | some t => t != "" && jsTrim (jsToLower t) == searchTerm
              | none => false) with
          | some chat => .ok (some chat.id)
          | none =>
            match env.chats.find? (fun c =>
                match c.topic with
                | some t => t != "" && jsIncludes (jsToLower t) searchTerm
                | none => false) with
            | some chat => .ok (some chat.id)
            | none =>
                .error ("Chat \"" ++ jsOrStr args.chatName "" ++
                  "\" not found. Available named chats: " ++
                  joinOrNone ((env.chats.filter
                    (fun c => jsTruthy c.topic)).map (fun c => c.topic.getD "")))
        else
          let searchTerm := jsTrim (jsToLower
            (if jsTruthy args.participantName then
               jsOrStr args.participantName ""
             else jsOrStr args.participantEmail ""))
          match env.chats.find? (fun c =>
              c.chatType == "oneOnOne" && chatHasParticipant searchTerm c) with
          | some c => .ok (some c.id)
          | none =>
            match env.chats.find? (chatHasParticipant searchTerm) with
            | some c => .ok (some c.id)
            | none => .ok none
      else
        .ok (if jsTruthy args.chatId then args.chatId else none)
    match resolved with
    | .error e => .error e
    | .ok (some cid) => .ok (.chatMessage cid false)
    | .ok none =>
        let targetEmail :=
          if jsTruthy args.participantEmail then args.participantEmail
          else args.participants.head?.bind (fun p => p.email)
        if !jsTruthy targetEmail then
          .error "Could not find an existing chat. Please provide a valid email address to create a new chat."
        else
          let te := targetEmail.getD ""
          match env.users.find? (fun u => u.email == te) with
          | none =>
              .error ("Could not find user with email \"" ++ te ++
                "\". Please verify the email address.")
          | some _ => .ok (.chatMessage env.newChatId true)

/-! ## Query classifier fallback (`classifyQueryWithAI`) -/

def emailKeywords : List String :=
  ["email", "mail", "gmail", "inbox", "send to"]

def teamsKeywords : List String :=
  ["teams", "team", "chat", "channel", "meeting", "calendar"]

structure Classification where
  isEmail : Bool
  isTeams : Bool
  confidence : String
  reasoning : String
  deriving DecidableEq, Repr

/-- The JSON object parsed from the model's classification answer (fields
may be absent). -/
structure RawClassification where
  isEmail : Option Bool := none
  isTeams : Option Bool := none
  confidence : Option String := none
  reasoning : Option String := none
  deriving DecidableEq, Repr

/-- The catch-branch of `classifyQueryWithAI`: deterministic keyword
matching over the fixed lists, confidence forced to low. -/
def fallbackClassify (message : String) : Classification :=
  let lowerMessage := jsToLower message
  { isEmail := emailKeywords.any (fun k => jsIncludes lowerMessage k),
    isTeams := teamsKeywords.any (fun k => jsIncludes lowerMessage k),
    confidence := "low",
    reasoning := "Fallback keyword matching due to AI error" }

/-- `classifyQueryWithAI(message, conversationHistory)`.  The primary path
(model call, JSON extraction, parse) is the oracle `primary`, a function of
the message and history; any error from it takes the fallback path. -/
def classifyQueryWithAI
    (primary : String → List String → Except String RawClassification)
    (message : String) (history : List String) : Classification :=
  match primary message history with
  | .ok c =>
      { isEmail := c.isEmail.getD false,
        isTeams := c.isTeams.getD false,
        confidence := jsOrStr c.confidence "low",
        reasoning := jsOrStr c.reasoning "No reasoning provided" }
  | .error _ => fallbackClassify message

/-! ## Shared lemmas about the orchestration loop -/

theorem finishLoop_dispatched (steps : List String) (disp : List ToolCall) :
    (finishLoop steps disp).dispatched = disp := by
  unfold finishLoop
  split <;> rfl

theorem runLoop_dispatched_le (pp : String) (tokens : Tokens)
    (exec : ToolCall → Except String ToolResult)
    (planner : Nat → NextStepOutcome) :
    ∀ (fuel : Nat) (cur : Decision) (steps : List String)
      (disp : List ToolCall),
      disp.length ≤ steps.length → steps.length ≤ MAX_STEPS →
      (runLoop pp tokens exec planner fuel cur steps disp).dispatched.length
        ≤ MAX_STEPS
  | 0, cur, steps, disp, h1, h2 => by
      simpa [runLoop, finishLoop_dispatched] using le_trans h1 h2
  | fuel + 1, cur, steps, disp, h1, h2 => by
      rw [runLoop]
      split
      case isTrue hg =>
        have hlt : steps.length < MAX_STEPS := by
          have := (Bool.and_eq_true _ _).mp hg
          exact of_decide_eq_true this.2
        split
        · exact le_trans h1 h2
        case h_2 nd =>
          split
          case isTrue =>
            split
            case isTrue => exact le_trans h1 h2
            case isFalse =>
              split
              case isTrue => exact le_trans h1 h2
              case isFalse =>
                dsimp only
                split
                · simpa using Nat.succ_le_of_lt (lt_of_le_of_lt h1 hlt)
                · exact runLoop_dispatched_le pp tokens exec planner fuel _ _ _
                    (by simpa using Nat.succ_le_succ h1)
                    (by simpa using Nat.succ_le_of_lt hlt)
          case isFalse =>
            simpa [finishLoop_dispatched] using le_trans h1 h2
      case isFalse =>
        simpa [finishLoop_dispatched] using le_trans h1 h2

theorem startsWith_ne_empty {s p : String} (hp : p.data ≠ [])
    (h : jsStartsWith s p = true) : (s != "") = true := by
  rw [bne_iff_ne]
  rintro rfl
  rw [jsStartsWith] at h
  cases hd : p.data with
  | nil => exact hp hd
  | cons c cs => rw [hd] at h; simp [List.isPrefixOf] at h

theorem not_gmail_of_teams {s : String} (h : jsStartsWith s "teams_" = true) :
    jsStartsWith s "gmail_" = false := by
  rw [jsStartsWith, List.isPrefixOf_iff_prefix] at h
  rw [jsStartsWith]
  by_contra hg
  rw [Bool.not_eq_false, List.isPrefixOf_iff_prefix] at hg
  rcases List.prefix_or_prefix_of_prefix hg h with hc | hc
  · exact absurd hc (by decide)
  · exact absurd hc (by decide)

theorem not_teams_of_gmail {s : String} (h : jsStartsWith s "gmail_" = true) :
    jsStartsWith s "teams_" = false := by
  rw [jsStartsWith, List.isPrefixOf_iff_prefix] at h
  rw [jsStartsWith]
  by_contra hg
  rw [Bool.not_eq_false, List.isPrefixOf_iff_prefix] at hg
  rcases List.prefix_or_prefix_of_prefix hg h with hc | hc
  · exact absurd hc (by decide)
  · exact absurd hc (by decide)

theorem startsWith_eq_string {s p : String} (h : jsStartsWith s p = true)
    (t : String) (ht : jsStartsWith t p = false) : s ≠ t := by
  rintro rfl
  rw [h] at ht
  cases ht

theorem token_ok_of_auth_pass {a b : Bool} (h : ¬((a && !b) = true)) :
    a = true → b = true := by
  intro ha
  cases b
  · simp [ha] at h
  · rfl



theorem multi_step_bound (pp : String) (tokens : Tokens)
    (exec : ToolCall → Except String ToolResult)
    (planner : Nat → NextStepOutcome) (d : Decision) :
    (handleDecision pp tokens exec planner d).dispatched.length ≤ MAX_STEPS := by
  rw [handleDecision]
  split
  case isFalse => simp [MAX_STEPS]
  case isTrue =>
    split_ifs <;> try simp [MAX_STEPS]
    split
    · simp [MAX_STEPS]
    · exact runLoop_dispatched_le pp tokens exec planner MAX_STEPS d _ _
        (by simp) (by simp [MAX_STEPS])

theorem runLoop_dispatch_tokens (pp : String) (tokens : Tokens)
    (exec : ToolCall → Except String ToolResult)
    (planner : Nat → NextStepOutcome) :
    ∀ (fuel : Nat) (cur : Decision) (steps : List String)
      (disp : List ToolCall),
      (∀ c ∈ disp,
        (jsStartsWith c.name "gmail_" = true →
          jsTruthy tokens.googleAccessToken = true) ∧
        (jsStartsWith c.name "teams_" = true →
          jsTruthy tokens.microsoftAccessToken = true)) →
      ∀ c ∈ (runLoop pp tokens exec planner fuel cur steps disp).dispatched,
        (jsStartsWith c.name "gmail_" = true →
          jsTruthy tokens.googleAccessToken = true) ∧
        (jsStartsWith c.name "teams_" = true →
          jsTruthy tokens.microsoftAccessToken = true)
  | 0, cur, steps, disp, hdisp => by
      simpa [runLoop, finishLoop_dispatched] using hdisp
  | fuel + 1, cur, steps, disp, hdisp => by
      rw [runLoop]
      split
      case isFalse => simpa [finishLoop_dispatched] using hdisp
      case isTrue =>
        split
        · exact hdisp
        case h_2 nd hnd =>
          split
          case isFalse => simpa [finishLoop_dispatched] using hdisp
          case isTrue hneeds =>
            split
            case isTrue => exact hdisp
            case isFalse hga =>
              split
              case isTrue => exact hdisp
              case isFalse hta =>
                have hcall :
                    (jsStartsWith nd.toolName "gmail_" = true →
                      jsTruthy tokens.googleAccessToken = true) ∧
                    (jsStartsWith nd.toolName "teams_" = true →
                      jsTruthy tokens.microsoftAccessToken = true) :=
                  ⟨token_ok_of_auth_pass hga, token_ok_of_auth_pass hta⟩
                have hdisp' : ∀ c ∈ disp ++
                    [(⟨stepProvider pp nd.toolName, nd.toolName⟩ : ToolCall)],
                    (jsStartsWith c.name "gmail_" = true →
                      jsTruthy tokens.googleAccessToken = true) ∧
                    (jsStartsWith c.name "teams_" = true →
                      jsTruthy tokens.microsoftAccessToken = true) := by
                  intro c hc
                  rcases List.mem_append.mp hc with hc | hc
                  · exact hdisp c hc
                  · rcases List.mem_singleton.mp hc with rfl
                    exact hcall
                dsimp only
                split
                · simpa using hdisp'
                · exact runLoop_dispatch_tokens pp tokens exec planner fuel
                    nd _ _ hdisp'

theorem handle_dispatch_tokens (pp : String) (tokens : Tokens)
    (exec : ToolCall → Except String ToolResult)
    (planner : Nat → NextStepOutcome) (d : Decision) :
    ∀ c ∈ (handleDecision pp tokens exec planner d).dispatched,
      (jsStartsWith c.name "gmail_" = true →
        jsTruthy tokens.googleAccessToken = true) ∧
      (jsStartsWith c.name "teams_" = true →
        jsTruthy tokens.microsoftAccessToken = true) := by
  rw [handleDecision]
  split
  case isFalse => simp
  case isTrue =>
    split_ifs with h1 h2 h3 h4
    · simp
    · simp
    · simp
    · simp
    · have hcall :
          (jsStartsWith d.toolName "gmail_" = true →
            jsTruthy tokens.googleAccessToken = true) ∧
          (jsStartsWith d.toolName "teams_" = true →
            jsTruthy tokens.microsoftAccessToken = true) :=
        ⟨token_ok_of_auth_pass h3, token_ok_of_auth_pass h4⟩
      show ∀ c ∈ (match exec ⟨stepProvider pp d.toolName, d.toolName⟩ with
        | Except.error _ => MCPOutcome.mk catchResponse
            [⟨stepProvider pp d.toolName, d.toolName⟩]
        | Except.ok _ => runLoop pp tokens exec planner MAX_STEPS d
            [d.toolName] [⟨stepProvider pp d.toolName, d.toolName⟩]).dispatched, _
      split
      · intro c hc
        rcases List.mem_singleton.mp hc with rfl
        exact hcall
      · exact runLoop_dispatch_tokens pp tokens exec planner MAX_STEPS d _ _
          (by
            intro c hc
            rcases List.mem_singleton.mp hc with rfl
            exact hcall)

theorem loop_parse_fail (pp : String) (tokens : Tokens)
    (exec : ToolCall → Except String ToolResult)
    (planner : Nat → NextStepOutcome) (fuel : Nat) (cur : Decision)
    (steps : List String) (disp : List ToolCall)
    (hc1 : cur.requiresNextStep = true)
    (hc2 : jsTruthy cur.nextStepDescription = true)
    (hlen : steps.length < MAX_STEPS)
    (hpl : planner steps.length = .parseFail) :
    runLoop pp tokens exec planner (fuel + 1) cur steps disp =
      ⟨{ success := true, mode := "partial", steps := steps }, disp⟩ := by
  simp [runLoop, hc1, hc2, hlen, hpl]

theorem mcpExec_ok (gi ti : String → Except String ToolResult) (c : ToolCall)
    (h : c.provider = "gmail" ∨ c.provider = "teams") :
    ∃ r, mcpExec gi ti c = .ok r := by
  rcases h with h | h <;> simp [mcpExec, mcpCallTool, h]

theorem stepProvider_cases (pp name : String)
    (hpp : pp = "gmail" ∨ pp = "teams") :
    stepProvider pp name = "gmail" ∨ stepProvider pp name = "teams" := by
  rw [stepProvider]
  split_ifs <;> simp [hpp]

theorem runLoop_no_catch (pp : String) (tokens : Tokens)
    (gi ti : String → Except String ToolResult)
    (planner : Nat → NextStepOutcome) (hpp : pp = "gmail" ∨ pp = "teams") :
    ∀ (fuel : Nat) (cur : Decision) (steps : List String)
      (disp : List ToolCall),
      (runLoop pp tokens (mcpExec gi ti) planner fuel cur steps
          disp).response.mode = "error" →
      (runLoop pp tokens (mcpExec gi ti) planner fuel cur steps
          disp).response.success = false
  | 0, cur, steps, disp => by
      rw [runLoop, finishLoop]
      split <;> simp
  | fuel + 1, cur, steps, disp => by
      rw [runLoop]
      split
      case isFalse =>
        rw [finishLoop]; split <;> simp
      case isTrue =>
        split
        · simp
        case h_2 nd hnd =>
          split
          case isFalse => rw [finishLoop]; split <;> simp
          case isTrue =>
            split
            case isTrue => simp
            case isFalse =>
              split
              case isTrue => simp
              case isFalse =>
                show ((match mcpExec gi ti
                      (ToolCall.mk (stepProvider pp nd.toolName)
                        nd.toolName) with
                  | Except.error _ => MCPOutcome.mk catchResponse
                      (disp ++ [ToolCall.mk (stepProvider pp nd.toolName)
                        nd.toolName])
                  | Except.ok _ => runLoop pp tokens (mcpExec gi ti) planner
                      fuel nd (steps ++ [nd.toolName])
                      (disp ++ [ToolCall.mk (stepProvider pp nd.toolName)
                        nd.toolName])).response.mode = "error" →
                  (match mcpExec gi ti
                      (ToolCall.mk (stepProvider pp nd.toolName)
                        nd.toolName) with
                  | Except.error _ => MCPOutcome.mk catchResponse
                      (disp ++ [ToolCall.mk (stepProvider pp nd.toolName)
                        nd.toolName])
                  | Except.ok _ => runLoop pp tokens (mcpExec gi ti) planner
                      fuel nd (steps ++ [nd.toolName])
                      (disp ++ [ToolCall.mk (stepProvider pp nd.toolName)
                        nd.toolName])).response.success = false)
                split
                case h_1 heq =>
                  rcases mcpExec_ok gi ti
                      (ToolCall.mk (stepProvider pp nd.toolName) nd.toolName)
                      (stepProvider_cases pp nd.toolName hpp) with ⟨r, hr⟩
                  rw [heq] at hr
                  cases hr
                case h_2 =>
                  exact runLoop_no_catch pp tokens gi ti planner hpp fuel nd
                    (steps ++ [nd.toolName])
                    (disp ++ [ToolCall.mk (stepProvider pp nd.toolName)
                      nd.toolName])

theorem handle_no_catch (gi ti : String → Except String ToolResult)
    (pp : String) (tokens : Tokens) (planner : Nat → NextStepOutcome)
    (d : Decision) (hpp : pp = "gmail" ∨ pp = "teams") :
    (handleDecision pp tokens (mcpExec gi ti) planner d).response.mode =
      "error" →
    (handleDecision pp tokens (mcpExec gi ti) planner d).response.success =
      false := by
  rw [handleDecision]
  split
  case isFalse => simp
  case isTrue =>
    split_ifs with h1 h2 h3 h4
    · simp
    · simp
    · simp
    · simp
    · show ((match mcpExec gi ti
            (ToolCall.mk (stepProvider pp d.toolName) d.toolName) with
        | Except.error _ => MCPOutcome.mk catchResponse
            [ToolCall.mk (stepProvider pp d.toolName) d.toolName]
        | Except.ok _ => runLoop pp tokens (mcpExec gi ti) planner MAX_STEPS
            d [d.toolName]
            [ToolCall.mk (stepProvider pp d.toolName)
              d.toolName]).response.mode = "error" →
        (match mcpExec gi ti
            (ToolCall.mk (stepProvider pp d.toolName) d.toolName) with
        | Except.error _ => MCPOutcome.mk catchResponse
            [ToolCall.mk (stepProvider pp d.toolName) d.toolName]
        | Except.ok _ => runLoop pp tokens (mcpExec gi ti) planner MAX_STEPS
            d [d.toolName]
            [ToolCall.mk (stepProvider pp d.toolName)
              d.toolName]).response.success = false)
      split
      next heq =>
        rcases mcpExec_ok gi ti
            (ToolCall.mk (stepProvider pp d.toolName) d.toolName)
            (stepProvider_cases pp d.toolName hpp) with ⟨r, hr⟩
        rw [heq] at hr
        cases hr
      next =>
        exact runLoop_no_catch pp tokens gi ti planner hpp MAX_STEPS d
          [d.toolName] [ToolCall.mk (stepProvider pp d.toolName) d.toolName]

theorem initial_gmail_auth (pp : String) (tokens : Tokens)
    (exec : ToolCall → Except String ToolResult)
    (planner : Nat → NextStepOutcome) (d : Decision)
    (hn : d.needsTool = true)
    (hg : jsStartsWith d.toolName "gmail_" = true)
    (htok : jsTruthy tokens.googleAccessToken = false)
    (hguard : d.toolName = "gmail_send_message" →
      jsBlank d.toolArgs.body = false) :
    handleDecision pp tokens exec planner d =
      ⟨{ success := false, mode := "auth_required",
         authRequired := some "google" }, []⟩ := by
  have hne := startsWith_ne_empty (p := "gmail_") (by decide) hg
  have hts : (d.toolName == "teams_send_message") = false :=
    beq_eq_false_iff_ne.mpr (startsWith_eq_string hg _ (by decide))
  have htp : (d.toolName == "teams_post_channel_message") = false :=
    beq_eq_false_iff_ne.mpr (startsWith_eq_string hg _ (by decide))
  by_cases hsm : d.toolName = "gmail_send_message"
  · simp [handleDecision, hn, hne, hts, htp, htok, hsm, hguard hsm,
      (by decide : jsStartsWith "gmail_send_message" "gmail_" = true)]
  · simp [handleDecision, hn, hne, hts, htp, hg, htok,
      beq_eq_false_iff_ne.mpr hsm]

theorem initial_teams_auth (pp : String) (tokens : Tokens)
    (exec : ToolCall → Except String ToolResult)
    (planner : Nat → NextStepOutcome) (d : Decision)
    (hn : d.needsTool = true)
    (hg : jsStartsWith d.toolName "teams_" = true)
    (htok : jsTruthy tokens.microsoftAccessToken = false)
    (hguard : (d.toolName = "teams_send_message" ∨
        d.toolName = "teams_post_channel_message") →
      jsBlank d.toolArgs.message = false) :
    handleDecision pp tokens exec planner d =
      ⟨{ success := false, mode := "auth_required",
         authRequired := some "microsoft" }, []⟩ := by
  have hne := startsWith_ne_empty (p := "teams_") (by decide) hg
  have hgm : (d.toolName == "gmail_send_message") = false :=
    beq_eq_false_iff_ne.mpr (startsWith_eq_string hg _ (by decide))
  have hng := not_gmail_of_teams hg
  by_cases hsm : d.toolName = "teams_send_message"
  · simp [handleDecision, hn, hne, hgm, htok, hsm, hguard (Or.inl hsm),
      (by decide : jsStartsWith "teams_send_message" "gmail_" = false),
      (by decide : jsStartsWith "teams_send_message" "teams_" = true)]
  · by_cases hpm : d.toolName = "teams_post_channel_message"
    · simp [handleDecision, hn, hne, hgm, htok, hpm, hguard (Or.inr hpm),
      (by decide : jsStartsWith "teams_post_channel_message" "gmail_" = false),
      (by decide : jsStartsWith "teams_post_channel_message" "teams_" = true)]
    · simp [handleDecision, hn, hne, hgm, hng, hg, htok,
        beq_eq_false_iff_ne.mpr hsm, beq_eq_false_iff_ne.mpr hpm]

theorem loop_gmail_auth (pp : String) (tokens : Tokens)
    (exec : ToolCall → Except String ToolResult)
    (planner : Nat → NextStepOutcome) (fuel : Nat) (cur : Decision)
    (steps : List String) (disp : List ToolCall) (nd : Decision)
    (hc1 : cur.requiresNextStep = true)
    (hc2 : jsTruthy cur.nextStepDescription = true)
    (hlen : steps.length < MAX_STEPS)
    (hpl : planner steps.length = .decision nd)
    (hn : nd.needsTool = true)
    (hg : jsStartsWith nd.toolName "gmail_" = true)
    (htok : jsTruthy tokens.googleAccessToken = false) :
    runLoop pp tokens exec planner (fuel + 1) cur steps disp =
      ⟨{ success := false, mode := "auth_required",
         authRequired := some "google", steps := steps }, disp⟩ := by
  have hne := startsWith_ne_empty (p := "gmail_") (by decide) hg
  simp [runLoop, hc1, hc2, hlen, hpl, hn, hne, hg, htok]

theorem loop_teams_auth (pp : String) (tokens : Tokens)
    (exec : ToolCall → Except String ToolResult)
    (planner : Nat → NextStepOutcome) (fuel : Nat) (cur : Decision)
    (steps : List String) (disp : List ToolCall) (nd : Decision)
    (hc1 : cur.requiresNextStep = true)
    (hc2 : jsTruthy cur.nextStepDescription = true)
    (hlen : steps.length < MAX_STEPS)
    (hpl : planner steps.length = .decision nd)
    (hn : nd.needsTool = true)
    (hg : jsStartsWith nd.toolName "teams_" = true)
    (htok : jsTruthy tokens.microsoftAccessToken = false) :
    runLoop pp tokens exec planner (fuel + 1) cur steps disp =
      ⟨{ success := false, mode := "auth_required",
         authRequired := some "microsoft", steps := steps }, disp⟩ := by
  have hne := startsWith_ne_empty (p := "teams_") (by decide) hg
  have hng := not_gmail_of_teams hg
  simp [runLoop, hc1, hc2, hlen, hpl, hn, hne, hg, hng, htok]

/-! ## Shared lemmas about the retry executors and caches -/

theorem gmailTerminal_cache {s : Nat} (msg : String) (cache : GmailCache)
    (hs : (s == 401) = false) : (gmailTerminal s msg cache).cache = cache := by
  rw [gmailTerminal]
  split_ifs with h1 h2 h3 h4 h5
  · simp [hs] at h1
  all_goals rfl

theorem teamsTerminal_cache {s : Nat} (msg : String) (cache : TeamsCache)
    (hs : (s == 401) = false) : (teamsTerminal s msg cache).cache = cache := by
  rw [teamsTerminal]
  split_ifs with h1 h2 h3 h4 h5
  · simp [hs] at h1
  all_goals rfl

theorem gmail_401_clears (call : Nat → ApiOutcome) (cache : GmailCache)
    (msg : String) (h : call 0 = .fail 401 msg) :
    executeWithRetry call 0 cache =
      ⟨.error "Your Google session has expired. Please sign in again.", [],
       emptyGmailCache⟩ := by
  simp [executeWithRetry, gmailRetryAux, h, gmailTerminal, MAX_RETRIES]

theorem teams_401_clears (call : Nat → ApiOutcome)
    (retryAfter : Nat → Option Nat) (tok : Option String)
    (cache : TeamsCache) (msg : String) (htok : jsTruthy tok = true)
    (h : call 0 = .fail 401 msg) :
    executeGraphAPICall tok call retryAfter 0 cache =
      ⟨.error "Your Microsoft session has expired. Please sign in again.", [],
       emptyTeamsCache⟩ := by
  simp [executeGraphAPICall, htok, teamsRetryAux, h, teamsTerminal,
    MAX_RETRIES]

theorem gmailRetryAux_cache (call : Nat → ApiOutcome)
    (hno : ∀ i m, call i ≠ .fail 401 m) :
    ∀ (remaining retryCount : Nat) (cache : GmailCache),
      (gmailRetryAux call remaining retryCount cache).cache = cache
  | 0, retryCount, cache => by
      rw [gmailRetryAux]
      cases hc : call retryCount with
      | ok => rfl
      | fail s m =>
        dsimp only
        have hs : (s == 401) = false := by
          rw [beq_eq_false_iff_ne]
          rintro rfl
          exact hno retryCount m hc
        by_cases h429 : (s == 429) = true
        · rw [if_pos h429]
        · rw [if_neg h429]
          exact gmailTerminal_cache m cache hs
  | r + 1, retryCount, cache => by
      rw [gmailRetryAux]
      cases hc : call retryCount with
      | ok => rfl
      | fail s m =>
        dsimp only
        have hs : (s == 401) = false := by
          rw [beq_eq_false_iff_ne]
          rintro rfl
          exact hno retryCount m hc
        by_cases h429 : (s == 429) = true
        · rw [if_pos h429]
          simpa using gmailRetryAux_cache call hno r (retryCount + 1) cache
        · rw [if_neg h429]
          by_cases h5 : (s == 503 || s == 500) = true
          · rw [if_pos h5]
            simpa using gmailRetryAux_cache call hno r (retryCount + 1) cache
          · rw [if_neg h5]
            exact gmailTerminal_cache m cache hs

theorem teamsRetryAux_cache (call : Nat → ApiOutcome)
    (retryAfter : Nat → Option Nat)
    (hno : ∀ i m, call i ≠ .fail 401 m) :
    ∀ (remaining retryCount : Nat) (cache : TeamsCache),
      (teamsRetryAux call retryAfter remaining retryCount cache).cache = cache
  | 0, retryCount, cache => by
      rw [teamsRetryAux]
      cases hc : call retryCount with
      | ok => rfl
      | fail s m =>
        dsimp only
        have hs : (s == 401) = false := by
          rw [beq_eq_false_iff_ne]
          rintro rfl
          exact hno retryCount m hc
        by_cases h429 : (s == 429) = true
        · rw [if_pos h429]
        · rw [if_neg h429]
          exact teamsTerminal_cache m cache hs
  | r + 1, retryCount, cache => by
      rw [teamsRetryAux]
      cases hc : call retryCount with
      | ok => rfl
      | fail s m =>
        dsimp only
        have hs : (s == 401) = false := by
          rw [beq_eq_false_iff_ne]
          rintro rfl
          exact hno retryCount m hc
        by_cases h429 : (s == 429) = true
        · rw [if_pos h429]
          simpa using teamsRetryAux_cache call retryAfter hno r
            (retryCount + 1) cache
        · rw [if_neg h429]
          by_cases h5 : (s == 503 || s == 504) = true
          · rw [if_pos h5]
            simpa using teamsRetryAux_cache call retryAfter hno r
              (retryCount + 1) cache
          · rw [if_neg h5]
            exact teamsTerminal_cache m cache hs

/-! ## Backoff schedule lemmas -/

theorem gmailTerminal_delays {s : Nat} (msg : String) (cache : GmailCache) :
    (gmailTerminal s msg cache).delays = [] := by
  rw [gmailTerminal]
  split_ifs <;> rfl

theorem teamsTerminal_delays {s : Nat} (msg : String) (cache : TeamsCache) :
    (teamsTerminal s msg cache).delays = [] := by
  rw [teamsTerminal]
  split_ifs <;> rfl

theorem gmail_429_const (msg : String) (cache : GmailCache) :
    ∀ remaining retryCount,
      gmailRetryAux (fun _ => .fail 429 msg) remaining retryCount cache =
        ⟨.error "Gmail API rate limit exceeded. Please try again later.",
         (List.range remaining).map
           (fun i => RATE_LIMIT_DELAY_MS * 2 ^ (retryCount + i)), cache⟩
  | 0, rc => by
      rw [gmailRetryAux]
      simp
  | r + 1, rc => by
      rw [gmailRetryAux]
      dsimp only
      rw [if_pos (by decide)]
      rw [gmail_429_const msg cache r (rc + 1)]
      have harr : ∀ i, rc + 1 + i = rc + (i + 1) := fun i => by omega
      simp [List.range_succ_eq_map, List.map_map, Function.comp, harr]

theorem gmail_transient_const (s : Nat) (msg : String) (cache : GmailCache)
    (h429 : (s == 429) = false) (h5 : (s == 503 || s == 500) = true) :
    ∀ remaining retryCount,
      gmailRetryAux (fun _ => .fail s msg) remaining retryCount cache =
        ⟨(gmailTerminal s msg cache).result,
         (List.range remaining).map
           (fun i => RETRY_DELAY_MS * 2 ^ (retryCount + i)),
         (gmailTerminal s msg cache).cache⟩
  | 0, rc => by
      rw [gmailRetryAux]
      dsimp only
      rw [if_neg (by simp [h429])]
      have hd := gmailTerminal_delays (s := s) msg cache
      cases ht : gmailTerminal s msg cache with
      | mk res dl ca =>
          rw [ht] at hd
          simp only at hd
          simp [hd]
  | r + 1, rc => by
      rw [gmailRetryAux]
      dsimp only
      rw [if_neg (by simp [h429]), if_pos h5]
      rw [gmail_transient_const s msg cache h429 h5 r (rc + 1)]
      have harr : ∀ i, rc + 1 + i = rc + (i + 1) := fun i => by omega
      simp [List.range_succ_eq_map, List.map_map, Function.comp, harr]

theorem teams_429_const (msg : String) (cache : TeamsCache)
    (retryAfter : Nat → Option Nat) (hra : ∀ i, retryAfter i = none) :
    ∀ remaining retryCount,
      teamsRetryAux (fun _ => .fail 429 msg) retryAfter remaining retryCount
          cache =
        ⟨.error "Microsoft Teams API rate limit exceeded. Please try again later.",
         (List.range remaining).map
           (fun i => RATE_LIMIT_DELAY_MS * 2 ^ (retryCount + i)), cache⟩
  | 0, rc => by
      rw [teamsRetryAux]
      simp
  | r + 1, rc => by
      rw [teamsRetryAux]
      dsimp only
      rw [if_pos (by decide)]
      rw [teams_429_const msg cache retryAfter hra r (rc + 1)]
      have harr : ∀ i, rc + 1 + i = rc + (i + 1) := fun i => by omega
      simp [hra, List.range_succ_eq_map, List.map_map, Function.comp, harr]

theorem teams_transient_const (s : Nat) (msg : String) (cache : TeamsCache)
    (retryAfter : Nat → Option Nat)
    (h429 : (s == 429) = false) (h5 : (s == 503 || s == 504) = true) :
    ∀ remaining retryCount,
      teamsRetryAux (fun _ => .fail s msg) retryAfter remaining retryCount
          cache =
        ⟨(teamsTerminal s msg cache).result,
         (List.range remaining).map
           (fun i => RETRY_DELAY_MS * 2 ^ (retryCount + i)),
         (teamsTerminal s msg cache).cache⟩
  | 0, rc => by
      rw [teamsRetryAux]
      dsimp only
      rw [if_neg (by simp [h429])]
      have hd := teamsTerminal_delays (s := s) msg cache
      cases ht : teamsTerminal s msg cache with
      | mk res dl ca =>
          rw [ht] at hd
          simp only at hd
          simp [hd]
  | r + 1, rc => by
      rw [teamsRetryAux]
      dsimp only
      rw [if_neg (by simp [h429]), if_pos h5]
      rw [teams_transient_const s msg cache retryAfter h429 h5 r (rc + 1)]
      have harr : ∀ i, rc + 1 + i = rc + (i + 1) := fun i => by omega
      simp [List.range_succ_eq_map, List.map_map, Function.comp, harr]

/-! ## Lemmas about `sendMessage` resolution -/

theorem sendMessage_prefers_oneOnOne (env : GraphEnv) (tok : Option String)
    (args : SendMessageArgs) (c : ChatInfo)
    (htok : jsTruthy tok = true)
    (hmsg : jsBlank args.message = false)
    (hteam : jsTruthy args.teamName = false)
    (hchatid : jsTruthy args.chatId = false)
    (hchatname : jsTruthy args.chatName = false)
    (hpn : jsTruthy args.participantName = true)
    (hfind : env.chats.find? (fun c =>
        c.chatType == "oneOnOne" && chatHasParticipant
          (jsTrim (jsToLower (jsOrStr args.participantName ""))) c) =
      some c) :
    sendMessage env tok args = .ok (.chatMessage c.id false) := by
  simp [sendMessage, htok, hmsg, hteam, hchatid, hchatname, hpn, hfind]

theorem sendMessage_creates (env : GraphEnv) (tok : Option String)
    (args : SendMessageArgs) (u : GraphUser) (term : String)
    (htok : jsTruthy tok = true)
    (hmsg : jsBlank args.message = false)
    (hteam : jsTruthy args.teamName = false)
    (hchatid : jsTruthy args.chatId = false)
    (hchatname : jsTruthy args.chatName = false)
    (hemail : jsTruthy args.participantEmail = true)
    (hterm : term = jsTrim (jsToLower
      (if jsTruthy args.participantName = true then
        jsOrStr args.participantName ""
      else jsOrStr args.participantEmail "")))
    (hfind1 : env.chats.find? (fun c =>
        c.chatType == "oneOnOne" && chatHasParticipant term c) = none)
    (hfind2 : env.chats.find? (chatHasParticipant term) = none)
    (huser : env.users.find?
        (fun u => u.email == (args.participantEmail.getD "")) = some u) :
    sendMessage env tok args = .ok (.chatMessage env.newChatId true) := by
  subst hterm
  simp [sendMessage, htok, hmsg, hteam, hchatid, hchatname, hemail,
    hfind1, hfind2, huser]

theorem sendMessage_name_only_fails (env : GraphEnv) (tok : Option String)
    (args : SendMessageArgs)
    (htok : jsTruthy tok = true)
    (hmsg : jsBlank args.message = false)
    (hteam : jsTruthy args.teamName = false)
    (hchatid : jsTruthy args.chatId = false)
    (hchatname : jsTruthy args.chatName = false)
    (hpn : jsTruthy args.participantName = true)
    (hfind1 : env.chats.find? (fun c =>
        c.chatType == "oneOnOne" && chatHasParticipant
          (jsTrim (jsToLower (jsOrStr args.participantName ""))) c) = none)
    (hfind2 : env.chats.find? (chatHasParticipant
        (jsTrim (jsToLower (jsOrStr args.participantName "")))) = none)
    (hnoemail : jsTruthy args.participantEmail = false)
    (hnopart : args.participants = []) :
    sendMessage env tok args =
      .error "Could not find an existing chat. Please provide a valid email address to create a new chat." := by
  simp [sendMessage, htok, hmsg, hteam, hchatid, hchatname, hpn, hfind1,
    hfind2, hnoemail, hnopart]
  exact fun h => absurd h (by decide)

/-! ## Claims C1 and C2 -/

/-- C1: over every planner behaviour, executor behaviour and initial
decision, the orchestration loop dispatches at most `MAX_STEPS = 5` tool
calls: re-entry into planning happens only while the executed-step count is
strictly below the bound. -/
theorem step_bound_invariant :
    MAX_STEPS = 5 ∧
    ∀ (pp : String) (tokens : Tokens)
      (exec : ToolCall → Except String ToolResult)
      (planner : Nat → NextStepOutcome) (d : Decision),
      (handleDecision pp tokens exec planner d).dispatched.length ≤ 5 :=
  ⟨rfl, fun pp tokens exec planner d =>
    multi_step_bound pp tokens exec planner d⟩

/-- C2 (counterexample): a planner decision naming `teams_bogus_tool`, a
tool absent from every declaration list, is dispatched to the Teams server
and the caller receives a success envelope in mode `mcp`, not an error
outcome — the loop performs no declaration check. -/
theorem unknown_tool_counterexample :
    teamsToolNames.contains "teams_bogus_tool" = false ∧
    gmailToolNames.contains "teams_bogus_tool" = false ∧
    handleDecision "teams"
      { googleAccessToken := some "t", microsoftAccessToken := some "t" }
      (mcpExec (fun _ => .ok ⟨[], false⟩) (fun _ => .ok ⟨[], false⟩))
      (fun _ => .parseFail)
      { needsTool := true, toolName := "teams_bogus_tool" } =
    ⟨{ success := true, mode := "mcp", steps := ["teams_bogus_tool"] },
     [⟨"teams", "teams_bogus_tool"⟩]⟩ := by
  decide

/-- C2 (amended): a decision naming a `teams_`-prefixed tool that is not
among the Teams declarations is dispatched to the Teams server (no
declaration check in the loop); the server's handler rejects it by
returning an ordinary `isError` result carrying the JSON error object, and
the loop returns a success envelope. -/
theorem unknown_tool_dispatched_with_error_result :
    ∀ (pp name : String) (gi ti : String → Except String ToolResult)
      (tokens : Tokens) (planner : Nat → NextStepOutcome),
      jsStartsWith name "teams_" = true →
      teamsToolNames.contains name = false →
      jsTruthy tokens.microsoftAccessToken = true →
      handleDecision pp tokens (mcpExec gi ti) planner
        { needsTool := true, toolName := name } =
        ⟨{ success := true, mode := "mcp", steps := [name] },
         [⟨"teams", name⟩]⟩
      ∧ serverCallTool teamsToolNames ti name =
        ⟨[.errJson ⟨true, "Unknown tool: " ++ name, name⟩], true⟩ := by
  intro pp name gi ti tokens planner h1 h2 h3
  have hne := startsWith_ne_empty (p := "teams_") (by decide) h1
  have hng := not_gmail_of_teams h1
  have hne1 : (name == "gmail_send_message") = false :=
    beq_eq_false_iff_ne.mpr (startsWith_eq_string h1 _ (by decide))
  have hne2 : (name == "teams_send_message") = false := by
    rw [beq_eq_false_iff_ne]
    rintro rfl
    exact absurd h2 (by decide)
  have hne3 : (name == "teams_post_channel_message") = false := by
    rw [beq_eq_false_iff_ne]
    rintro rfl
    exact absurd h2 (by decide)
  constructor
  · simp [handleDecision, hne, hng, hne1, hne2, hne3, h1, h3, stepProvider,
      mcpExec, mcpCallTool, runLoop, finishLoop, MAX_STEPS]
  · have h2m : ¬ name ∈ teamsToolNames := by simpa using h2
    simp [serverCallTool, h2m]

/-- C2 (witness): the amended statement instantiated at the unknown tool
name `teams_nonexistent_tool` with both tokens present. -/
theorem unknown_tool_dispatched_witness :
    handleDecision "teams"
      { googleAccessToken := some "g", microsoftAccessToken := some "m" }
      (mcpExec (fun _ => .ok ⟨[], false⟩) (fun _ => .ok ⟨[], false⟩))
      (fun _ => .parseFail)
      { needsTool := true, toolName := "teams_nonexistent_tool" } =
      ⟨{ success := true, mode := "mcp", steps := ["teams_nonexistent_tool"] },
       [⟨"teams", "teams_nonexistent_tool"⟩]⟩
    ∧ serverCallTool teamsToolNames (fun _ => .ok ⟨[], false⟩)
        "teams_nonexistent_tool" =
      ⟨[.errJson ⟨true, "Unknown tool: " ++ "teams_nonexistent_tool",
        "teams_nonexistent_tool"⟩], true⟩ :=
  unknown_tool_dispatched_with_error_result "teams" "teams_nonexistent_tool"
    (fun _ => .ok ⟨[], false⟩) (fun _ => .ok ⟨[], false⟩)
    { googleAccessToken := some "g", microsoftAccessToken := some "m" }
    (fun _ => .parseFail) (by decide) (by decide) (by decide)

/-! ## Claims C3 and C4 -/

/-- C3 (counterexample): a two-step chain whose second planner decision is
`gmail_send_message` with a missing body is dispatched anyway — the
blank-content validation runs only on the first decision. -/
theorem late_blank_body_dispatched_counterexample :
    jsBlank (none : Option String) = true ∧
    handleDecision "teams"
      { googleAccessToken := some "g", microsoftAccessToken := some "m" }
      (fun _ => .ok ⟨[], false⟩)
      (fun i => if i == 1 then
          .decision { needsTool := true, toolName := "gmail_send_message" }
        else .parseFail)
      { needsTool := true, toolName := "teams_find_chat_by_name",
        requiresNextStep := true,
        nextStepDescription := some "send the email" } =
    ⟨{ success := true, mode := "mcp_multi_step",
       steps := ["teams_find_chat_by_name", "gmail_send_message"],
       totalSteps := some 2 },
     [⟨"teams", "teams_find_chat_by_name"⟩,
      ⟨"gmail", "gmail_send_message"⟩]⟩ := by
  decide

/-- C3 (amended): the blank-content guard applies to the first planner
decision only: a first-step `gmail_send_message` with blank `body`, or a
first-step `teams_send_message`/`teams_post_channel_message` with blank
`message`, yields the need-more-information error envelope with nothing
dispatched (later steps are dispatched without this check). -/
theorem blank_content_rejected_first_step (pp : String) (tokens : Tokens)
    (exec : ToolCall → Except String ToolResult)
    (planner : Nat → NextStepOutcome) (d : Decision)
    (hn : d.needsTool = true)
    (hv : (d.toolName = "gmail_send_message" ∧
        jsBlank d.toolArgs.body = true) ∨
      ((d.toolName = "teams_send_message" ∨
        d.toolName = "teams_post_channel_message") ∧
       jsBlank d.toolArgs.message = true)) :
    handleDecision pp tokens exec planner d =
      ⟨{ success := false, mode := "error" }, []⟩ := by
  rcases hv with ⟨hname, hblank⟩ | ⟨hname | hname, hblank⟩ <;>
    simp [handleDecision, hn, hname, hblank]

/-- C3 (witness): the amended statement at a concrete blank-body
`gmail_send_message` decision. -/
theorem blank_content_rejected_witness :
    handleDecision "gmail"
      { googleAccessToken := some "g", microsoftAccessToken := some "m" }
      (fun _ => .ok ⟨[], false⟩) (fun _ => .parseFail)
      { needsTool := true, toolName := "gmail_send_message",
        toolArgs := { body := none, message := some "x" } } =
      ⟨{ success := false, mode := "error" }, []⟩ :=
  blank_content_rejected_first_step "gmail"
    { googleAccessToken := some "g", microsoftAccessToken := some "m" }
    (fun _ => .ok ⟨[], false⟩) (fun _ => .parseFail)
    { needsTool := true, toolName := "gmail_send_message",
      toolArgs := { body := none, message := some "x" } }
    (by decide) (Or.inl ⟨rfl, by decide⟩)

/-- C4 (counterexample): a first-step `gmail_send_message` decision with a
blank body while no Google token is held returns the blank-content error
envelope (mode `error`, no provider named), not the `auth_required`
outcome the claim requires for every such step. -/
theorem auth_check_precedence_counterexample :
    handleDecision "gmail"
      { googleAccessToken := none, microsoftAccessToken := none }
      (fun _ => .ok ⟨[], false⟩) (fun _ => .parseFail)
      { needsTool := true, toolName := "gmail_send_message" } =
      ⟨{ success := false, mode := "error" }, []⟩ ∧
    ({ success := false, mode := "error" } : ChatResponse).mode ≠
      "auth_required" := by
  decide

/-- C4 (amended): a planning step that selects a `gmail_` (resp. `teams_`)
tool without a Google (resp. Microsoft) token yields the `auth_required`
envelope naming the provider and dispatches nothing — unconditionally on
later steps, and on the first step provided the blank-content guard (which
runs first) does not fire; moreover no dispatched call ever names a
provider-prefixed tool whose token is absent. -/
theorem auth_required_before_dispatch :
    (∀ (pp : String) (tokens : Tokens)
       (exec : ToolCall → Except String ToolResult)
       (planner : Nat → NextStepOutcome) (d : Decision),
       d.needsTool = true → jsStartsWith d.toolName "gmail_" = true →
       jsTruthy tokens.googleAccessToken = false →
       (d.toolName = "gmail_send_message" →
         jsBlank d.toolArgs.body = false) →
       handleDecision pp tokens exec planner d =
         ⟨{ success := false, mode := "auth_required",
            authRequired := some "google" }, []⟩)
  ∧ (∀ (pp : String) (tokens : Tokens)
       (exec : ToolCall → Except String ToolResult)
       (planner : Nat → NextStepOutcome) (d : Decision),
       d.needsTool = true → jsStartsWith d.toolName "teams_" = true →
       jsTruthy tokens.microsoftAccessToken = false →
       ((d.toolName = "teams_send_message" ∨
         d.toolName = "teams_post_channel_message") →
         jsBlank d.toolArgs.message = false) →
       handleDecision pp tokens exec planner d =
         ⟨{ success := false, mode := "auth_required",
            authRequired := some "microsoft" }, []⟩)
  ∧ (∀ (pp : String) (tokens : Tokens)
       (exec : ToolCall → Except String ToolResult)
       (planner : Nat → NextStepOutcome) (fuel : Nat) (cur : Decision)
       (steps : List String) (disp : List ToolCall) (nd : Decision),
       cur.requiresNextStep = true →
       jsTruthy cur.nextStepDescription = true →
       steps.length < MAX_STEPS →
       planner steps.length = .decision nd →
       nd.needsTool = true → jsStartsWith nd.toolName "gmail_" = true →
       jsTruthy tokens.googleAccessToken = false →
       runLoop pp tokens exec planner (fuel + 1) cur steps disp =
         ⟨{ success := false, mode := "auth_required",
            authRequired := some "google", steps := steps }, disp⟩)
  ∧ (∀ (pp : String) (tokens : Tokens)
       (exec : ToolCall → Except String ToolResult)
       (planner : Nat → NextStepOutcome) (fuel : Nat) (cur : Decision)
       (steps : List String) (disp : List ToolCall) (nd : Decision),
       cur.requiresNextStep = true →
       jsTruthy cur.nextStepDescription = true →
       steps.length < MAX_STEPS →
       planner steps.length = .decision nd →
       nd.needsTool = true → jsStartsWith nd.toolName "teams_" = true →
       jsTruthy tokens.microsoftAccessToken = false →
       runLoop pp tokens exec planner (fuel + 1) cur steps disp =
         ⟨{ success := false, mode := "auth_required",
            authRequired := some "microsoft", steps := steps }, disp⟩)
  ∧ (∀ (pp : String) (tokens : Tokens)
       (exec : ToolCall → Except String ToolResult)
       (planner : Nat → NextStepOutcome) (d : Decision),
       ∀ c ∈ (handleDecision pp tokens exec planner d).dispatched,
         (jsStartsWith c.name "gmail_" = true →
           jsTruthy tokens.googleAccessToken = true) ∧
         (jsStartsWith c.name "teams_" = true →
           jsTruthy tokens.microsoftAccessToken = true)) :=
  ⟨initial_gmail_auth, initial_teams_auth, loop_gmail_auth, loop_teams_auth,
   handle_dispatch_tokens⟩

/-- C4 (witness): the amended statement instantiated on concrete first-step
and loop-step auth failures, plus the dispatch invariant at a concrete
dispatched call. -/
theorem auth_required_before_dispatch_witness :
    handleDecision "gmail"
      { googleAccessToken := none, microsoftAccessToken := some "m" }
      (fun _ => .ok ⟨[], false⟩) (fun _ => .parseFail)
      { needsTool := true, toolName := "gmail_list_messages" } =
      ⟨{ success := false, mode := "auth_required",
         authRequired := some "google" }, []⟩
  ∧ handleDecision "teams"
      { googleAccessToken := some "g", microsoftAccessToken := none }
      (fun _ => .ok ⟨[], false⟩) (fun _ => .parseFail)
      { needsTool := true, toolName := "teams_list_chats" } =
      ⟨{ success := false, mode := "auth_required",
         authRequired := some "microsoft" }, []⟩
  ∧ runLoop "teams"
      { googleAccessToken := none, microsoftAccessToken := some "m" }
      (fun _ => .ok ⟨[], false⟩)
      (fun _ => .decision
        { needsTool := true, toolName := "gmail_get_profile" }) 4
      { needsTool := true, toolName := "teams_list_chats",
        requiresNextStep := true, nextStepDescription := some "next" }
      ["teams_list_chats"] [⟨"teams", "teams_list_chats"⟩] =
      ⟨{ success := false, mode := "auth_required",
         authRequired := some "google", steps := ["teams_list_chats"] },
       [⟨"teams", "teams_list_chats"⟩]⟩
  ∧ runLoop "gmail"
      { googleAccessToken := some "g", microsoftAccessToken := none }
      (fun _ => .ok ⟨[], false⟩)
      (fun _ => .decision
        { needsTool := true, toolName := "teams_list_chats" }) 4
      { needsTool := true, toolName := "gmail_list_messages",
        requiresNextStep := true, nextStepDescription := some "next" }
      ["gmail_list_messages"] [⟨"gmail", "gmail_list_messages"⟩] =
      ⟨{ success := false, mode := "auth_required",
         authRequired := some "microsoft", steps := ["gmail_list_messages"] },
       [⟨"gmail", "gmail_list_messages"⟩]⟩
  ∧ ((jsStartsWith "teams_list_chats" "gmail_" = true →
      jsTruthy (some "g" : Option String) = true) ∧
     (jsStartsWith "teams_list_chats" "teams_" = true →
      jsTruthy (some "m" : Option String) = true)) := by
  refine ⟨?_, ?_, ?_, ?_, ?_⟩
  · exact auth_required_before_dispatch.1 "gmail"
      { googleAccessToken := none, microsoftAccessToken := some "m" }
      (fun _ => .ok ⟨[], false⟩) (fun _ => .parseFail)
      { needsTool := true, toolName := "gmail_list_messages" }
      (by decide) (by decide) (by decide) (by decide)
  · exact auth_required_before_dispatch.2.1 "teams"
      { googleAccessToken := some "g", microsoftAccessToken := none }
      (fun _ => .ok ⟨[], false⟩) (fun _ => .parseFail)
      { needsTool := true, toolName := "teams_list_chats" }
      (by decide) (by decide) (by decide) (by decide)
  · exact auth_required_before_dispatch.2.2.1 "teams"
      { googleAccessToken := none, microsoftAccessToken := some "m" }
      (fun _ => .ok ⟨[], false⟩)
      (fun _ => .decision
        { needsTool := true, toolName := "gmail_get_profile" }) 3
      { needsTool := true, toolName := "teams_list_chats",
        requiresNextStep := true, nextStepDescription := some "next" }
      ["teams_list_chats"] [⟨"teams", "teams_list_chats"⟩]
      { needsTool := true, toolName := "gmail_get_profile" }
      (by decide) (by decide) (by decide) rfl (by decide) (by decide)
      (by decide)
  · exact auth_required_before_dispatch.2.2.2.1 "gmail"
      { googleAccessToken := some "g", microsoftAccessToken := none }
      (fun _ => .ok ⟨[], false⟩)
      (fun _ => .decision
        { needsTool := true, toolName := "teams_list_chats" }) 3
      { needsTool := true, toolName := "gmail_list_messages",
        requiresNextStep := true, nextStepDescription := some "next" }
      ["gmail_list_messages"] [⟨"gmail", "gmail_list_messages"⟩]
      { needsTool := true, toolName := "teams_list_chats" }
      (by decide) (by decide) (by decide) rfl (by decide) (by decide)
      (by decide)
  · exact auth_required_before_dispatch.2.2.2.2 "teams"
      { googleAccessToken := some "g", microsoftAccessToken := some "m" }
      (fun _ => .ok ⟨[], false⟩) (fun _ => .parseFail)
      { needsTool := true, toolName := "teams_list_chats" }
      ⟨"teams", "teams_list_chats"⟩ (by decide)

/-! ## Claim C5 -/

/-- C5 (counterexample): a Gmail call failing with status 504 is not
retried (no backoff delay is slept; the generic error is thrown at once),
and neither is a Teams call failing with status 500 — contradicting the
claim that both executors retry all of 429/503/500/504. -/
theorem gmail504_teams500_not_retried_counterexample :
    executeWithRetry (fun _ => .fail 504 "m") 0 {} =
      ⟨.error "Gmail API error: m", [], {}⟩ ∧
    executeGraphAPICall (some "t") (fun _ => .fail 500 "m") (fun _ => none)
        0 {} =
      ⟨.error "Microsoft Graph API error: m", [], {}⟩ := by
  decide

/-- C5 (amended): Gmail retries 429 (5 s base) and 503/500 (1 s base);
Teams retries 429 (the `retry-after` header when present, else 5 s base)
and 503/504 (1 s base); absent headers each schedule doubles and is
strictly increasing, bounded by 10 retries; 401/403/404/400 are translated
immediately with no retry delay in either executor. -/
theorem retry_backoff_schedules :
    (∀ (msg : String) (cache : GmailCache),
      executeWithRetry (fun _ => .fail 429 msg) 0 cache =
        ⟨.error "Gmail API rate limit exceeded. Please try again later.",
         (List.range MAX_RETRIES).map
           (fun i => RATE_LIMIT_DELAY_MS * 2 ^ i), cache⟩)
  ∧ (∀ (msg : String) (cache : GmailCache) (s : Nat), s = 503 ∨ s = 500 →
      executeWithRetry (fun _ => .fail s msg) 0 cache =
        ⟨(gmailTerminal s msg cache).result,
         (List.range MAX_RETRIES).map (fun i => RETRY_DELAY_MS * 2 ^ i),
         cache⟩)
  ∧ (∀ (msg : String) (cache : TeamsCache) (tok : Option String)
       (retryAfter : Nat → Option Nat),
      jsTruthy tok = true → (∀ i, retryAfter i = none) →
      executeGraphAPICall tok (fun _ => .fail 429 msg) retryAfter 0 cache =
        ⟨.error "Microsoft Teams API rate limit exceeded. Please try again later.",
         (List.range MAX_RETRIES).map
           (fun i => RATE_LIMIT_DELAY_MS * 2 ^ i), cache⟩)
  ∧ (∀ (msg : String) (cache : TeamsCache) (tok : Option String)
       (retryAfter : Nat → Option Nat) (s : Nat),
      jsTruthy tok = true → s = 503 ∨ s = 504 →
      executeGraphAPICall tok (fun _ => .fail s msg) retryAfter 0 cache =
        ⟨(teamsTerminal s msg cache).result,
         (List.range MAX_RETRIES).map (fun i => RETRY_DELAY_MS * 2 ^ i),
         cache⟩)
  ∧ (∀ (s : Nat) (msg : String) (cacheG : GmailCache) (cacheT : TeamsCache),
      s = 401 ∨ s = 403 ∨ s = 404 ∨ s = 400 →
      (executeWithRetry (fun _ => .fail s msg) 0 cacheG).delays = [] ∧
      (executeGraphAPICall (some "t") (fun _ => .fail s msg)
        (fun _ => none) 0 cacheT).delays = [])
  ∧ List.Pairwise (· < ·)
      ((List.range MAX_RETRIES).map (fun i => RATE_LIMIT_DELAY_MS * 2 ^ i))
  ∧ List.Pairwise (· < ·)
      ((List.range MAX_RETRIES).map (fun i => RETRY_DELAY_MS * 2 ^ i)) := by
  refine ⟨?_, ?_, ?_, ?_, ?_, by decide, by decide⟩
  · intro msg cache
    rw [executeWithRetry, gmail_429_const]
    simp
  · rintro msg cache s (rfl | rfl) <;>
      · rw [executeWithRetry,
          gmail_transient_const _ _ _ (by decide) (by decide)]
        rw [gmailTerminal_cache _ _ (by decide)]
        simp
  · intro msg cache tok retryAfter htok hra
    rw [executeGraphAPICall, if_neg (by simp [htok])]
    rw [teams_429_const msg cache retryAfter hra]
    simp
  · rintro msg cache tok retryAfter s htok (rfl | rfl) <;>
      · rw [executeGraphAPICall, if_neg (by simp [htok])]
        rw [teams_transient_const _ _ _ _ (by decide) (by decide)]
        rw [teamsTerminal_cache _ _ (by decide)]
        simp
  · rintro s msg cacheG cacheT (rfl | rfl | rfl | rfl) <;>
      exact ⟨by simp [executeWithRetry, gmailRetryAux, gmailTerminal,
          MAX_RETRIES],
        by simp [executeGraphAPICall, jsTruthy, teamsRetryAux,
          teamsTerminal, MAX_RETRIES]⟩

/-- C5 (witness): the amended statement instantiated: the full Gmail 429
and 503 schedules, the Teams 504 schedule with no headers, and the
immediate (delay-free) 404 translation. -/
theorem retry_backoff_schedules_witness :
    executeWithRetry (fun _ => .fail 429 "m") 0 {} =
      ⟨.error "Gmail API rate limit exceeded. Please try again later.",
       (List.range MAX_RETRIES).map
         (fun i => RATE_LIMIT_DELAY_MS * 2 ^ i), {}⟩
  ∧ executeWithRetry (fun _ => .fail 503 "m") 0 {} =
      ⟨(gmailTerminal 503 "m" {}).result,
       (List.range MAX_RETRIES).map (fun i => RETRY_DELAY_MS * 2 ^ i), {}⟩
  ∧ executeGraphAPICall (some "t") (fun _ => .fail 504 "m")
        (fun _ => none) 0 {} =
      ⟨(teamsTerminal 504 "m" {}).result,
       (List.range MAX_RETRIES).map (fun i => RETRY_DELAY_MS * 2 ^ i), {}⟩
  ∧ (executeWithRetry (fun _ => .fail 404 "m") 0 {}).delays = [] :=
  ⟨retry_backoff_schedules.1 "m" {},
   retry_backoff_schedules.2.1 "m" {} 503 (Or.inl rfl),
   retry_backoff_schedules.2.2.2.1 "m" {} (some "t") (fun _ => none) 504
     (by decide) (Or.inr rfl),
   (retry_backoff_schedules.2.2.2.2.1 404 "m" {} {}
     (Or.inr (Or.inr (Or.inl rfl)))).1⟩

/-! ## Claims C6 and C7 -/

/-- C6 (counterexample): a planner that always requests a next step drives
the loop to the 5-step bound, after which formatting returns mode
`mcp_multi_step` — the envelope is not annotated with the `partial` mode
the claim requires. -/
theorem bound_exhaustion_not_partial_counterexample :
    (handleDecision "teams"
      { googleAccessToken := some "g", microsoftAccessToken := some "m" }
      (fun _ => .ok ⟨[], false⟩)
      (fun _ => .decision
        { needsTool := true, toolName := "teams_list_chats",
          requiresNextStep := true, nextStepDescription := some "continue" })
      { needsTool := true, toolName := "teams_list_chats",
        requiresNextStep := true,
        nextStepDescription := some "continue" }).response =
      { success := true, mode := "mcp_multi_step",
        steps := ["teams_list_chats", "teams_list_chats", "teams_list_chats",
          "teams_list_chats", "teams_list_chats"],
        totalSteps := some 5 } ∧
    ({ success := true, mode := "mcp_multi_step",
       steps := ["teams_list_chats", "teams_list_chats", "teams_list_chats",
         "teams_list_chats", "teams_list_chats"],
       totalSteps := some 5 } : ChatResponse).mode ≠ "partial" := by
  decide

/-- C6 (amended): reaching the step bound with the planner still requesting
a next step forces formatting of the existing 5-step chain, returned as a
success envelope in mode `mcp_multi_step` carrying the step list and
count; the `partial` mode is emitted only when a next-step planner answer
fails to parse. -/
theorem bound_exhaustion_formats_multi_step :
    (handleDecision "teams"
      { googleAccessToken := some "g", microsoftAccessToken := some "m" }
      (fun _ => .ok ⟨[], false⟩)
      (fun _ => .decision
        { needsTool := true, toolName := "teams_list_chats",
          requiresNextStep := true, nextStepDescription := some "continue" })
      { needsTool := true, toolName := "teams_list_chats",
        requiresNextStep := true, nextStepDescription := some "continue" } =
      ⟨{ success := true, mode := "mcp_multi_step",
         steps := ["teams_list_chats", "teams_list_chats", "teams_list_chats",
           "teams_list_chats", "teams_list_chats"],
         totalSteps := some 5 },
       [⟨"teams", "teams_list_chats"⟩, ⟨"teams", "teams_list_chats"⟩,
        ⟨"teams", "teams_list_chats"⟩, ⟨"teams", "teams_list_chats"⟩,
        ⟨"teams", "teams_list_chats"⟩]⟩)
  ∧ (∀ (pp : String) (tokens : Tokens)
       (exec : ToolCall → Except String ToolResult)
       (planner : Nat → NextStepOutcome) (fuel : Nat) (cur : Decision)
       (steps : List String) (disp : List ToolCall),
       cur.requiresNextStep = true →
       jsTruthy cur.nextStepDescription = true →
       steps.length < MAX_STEPS →
       planner steps.length = .parseFail →
       runLoop pp tokens exec planner (fuel + 1) cur steps disp =
         ⟨{ success := true, mode := "partial", steps := steps }, disp⟩) :=
  ⟨by decide, loop_parse_fail⟩

/-- C6 (witness): the parse-failure arm of the amended statement at a
concrete loop state. -/
theorem bound_exhaustion_witness :
    runLoop "teams"
      { googleAccessToken := some "g", microsoftAccessToken := some "m" }
      (fun _ => .ok ⟨[], false⟩) (fun _ => .parseFail) 4
      { needsTool := true, toolName := "teams_list_chats",
        requiresNextStep := true, nextStepDescription := some "next" }
      ["teams_list_chats"] [⟨"teams", "teams_list_chats"⟩] =
      ⟨{ success := true, mode := "partial",
         steps := ["teams_list_chats"] },
       [⟨"teams", "teams_list_chats"⟩]⟩ :=
  bound_exhaustion_formats_multi_step.2 "teams"
    { googleAccessToken := some "g", microsoftAccessToken := some "m" }
    (fun _ => .ok ⟨[], false⟩) (fun _ => .parseFail) 3
    { needsTool := true, toolName := "teams_list_chats",
      requiresNextStep := true, nextStepDescription := some "next" }
    ["teams_list_chats"] [⟨"teams", "teams_list_chats"⟩]
    (by decide) (by decide) (by decide) rfl

/-- C7 (counterexample): `teams_send_message` invoked with only a
participant name and no existing chat does not create a conversation: it
fails asking for an email address, so "send to X" by name does not succeed
without a prior conversation. -/
theorem send_by_name_no_chat_counterexample :
    sendMessage {} (some "t")
      { participantName := some "alice", message := some "hi" } =
      .error "Could not find an existing chat. Please provide a valid email address to create a new chat." := by
  decide

/-- C7 (amended): with a participant identifier and no chatId the executor
matches chats case-insensitively by member name/email substring, preferring
a one-on-one chat over any group chat; when nothing matches it creates a
new chat only if an email is available (`participantEmail` or the first
entry of `participants`), looking the user up first; with only a name and
no matching chat it fails asking for an email. -/
theorem participant_resolution_and_creation :
    (∀ (env : GraphEnv) (tok : Option String) (args : SendMessageArgs)
       (c : ChatInfo),
       jsTruthy tok = true → jsBlank args.message = false →
       jsTruthy args.teamName = false → jsTruthy args.chatId = false →
       jsTruthy args.chatName = false →
       jsTruthy args.participantName = true →
       env.chats.find? (fun c => c.chatType == "oneOnOne" &&
         chatHasParticipant
           (jsTrim (jsToLower (jsOrStr args.participantName ""))) c) =
         some c →
       sendMessage env tok args = .ok (.chatMessage c.id false))
  ∧ (∀ (env : GraphEnv) (tok : Option String) (args : SendMessageArgs)
       (u : GraphUser) (term : String),
       jsTruthy tok = true → jsBlank args.message = false →
       jsTruthy args.teamName = false → jsTruthy args.chatId = false →
       jsTruthy args.chatName = false →
       jsTruthy args.participantEmail = true →
       term = jsTrim (jsToLower
         (if jsTruthy args.participantName = true then
           jsOrStr args.participantName ""
         else jsOrStr args.participantEmail "")) →
       env.chats.find? (fun c => c.chatType == "oneOnOne" &&
         chatHasParticipant term c) = none →
       env.chats.find? (chatHasParticipant term) = none →
       env.users.find?
         (fun u => u.email == (args.participantEmail.getD "")) = some u →
       sendMessage env tok args = .ok (.chatMessage env.newChatId true))
  ∧ (∀ (env : GraphEnv) (tok : Option String) (args : SendMessageArgs),
       jsTruthy tok = true → jsBlank args.message = false →
       jsTruthy args.teamName = false → jsTruthy args.chatId = false →
       jsTruthy args.chatName = false →
       jsTruthy args.participantName = true →
       env.chats.find? (fun c => c.chatType == "oneOnOne" &&
         chatHasParticipant
           (jsTrim (jsToLower (jsOrStr args.participantName ""))) c) =
         none →
       env.chats.find? (chatHasParticipant
         (jsTrim (jsToLower (jsOrStr args.participantName "")))) = none →
       jsTruthy args.participantEmail = false →
       args.participants = [] →
       sendMessage env tok args =
         .error "Could not find an existing chat. Please provide a valid email address to create a new chat.") :=
  ⟨sendMessage_prefers_oneOnOne, sendMessage_creates,
   sendMessage_name_only_fails⟩

/-- C7 (witness): the amended statement instantiated: a one-on-one chat is
preferred over a group chat matching the same participant; a new chat is
created from an email when nothing matches; a name-only request with no
matching chat fails. -/
theorem participant_resolution_witness :
    sendMessage
      { chats := [⟨"g1", some "grp", "group",
          [⟨some "Alice Smith", some "alice@x.com"⟩]⟩,
        ⟨"c1", none, "oneOnOne",
          [⟨some "Alice Smith", some "alice@x.com"⟩]⟩] }
      (some "t") { participantName := some "Alice", message := some "hi" } =
      .ok (.chatMessage "c1" false)
  ∧ sendMessage
      { users := [⟨"bob@x.com", "u1"⟩], newChatId := "nc" } (some "t")
      { participantEmail := some "bob@x.com", message := some "hi" } =
      .ok (.chatMessage "nc" true)
  ∧ sendMessage {} (some "t")
      { participantName := some "carol", message := some "hi" } =
      .error "Could not find an existing chat. Please provide a valid email address to create a new chat." := by
  refine ⟨?_, ?_, ?_⟩
  · exact participant_resolution_and_creation.1
      { chats := [⟨"g1", some "grp", "group",
          [⟨some "Alice Smith", some "alice@x.com"⟩]⟩,
        ⟨"c1", none, "oneOnOne",
          [⟨some "Alice Smith", some "alice@x.com"⟩]⟩] }
      (some "t") { participantName := some "Alice", message := some "hi" }
      ⟨"c1", none, "oneOnOne", [⟨some "Alice Smith", some "alice@x.com"⟩]⟩
      (by decide) (by decide) (by decide) (by decide) (by decide)
      (by decide) (by decide)
  · exact participant_resolution_and_creation.2.1
      { users := [⟨"bob@x.com", "u1"⟩], newChatId := "nc" } (some "t")
      { participantEmail := some "bob@x.com", message := some "hi" }
      ⟨"bob@x.com", "u1"⟩ "bob@x.com"
      (by decide) (by decide) (by decide) (by decide) (by decide)
      (by decide) (by decide) (by decide) (by decide) (by decide)
  · exact participant_resolution_and_creation.2.2 {} (some "t")
      { participantName := some "carol", message := some "hi" }
      (by decide) (by decide) (by decide) (by decide) (by decide)
      (by decide) (by decide) (by decide) (by decide) rfl

/-! ## Claims C8, C9 and C10 -/

/-- C8: a call failing with 401 resets the executor's cache to its empty
initial state and throws the session-expired message, in both executors;
any script that never fails with 401 leaves the cache untouched. -/
theorem session_expiry_cache_reset :
    (∀ (call : Nat → ApiOutcome) (cache : GmailCache) (msg : String),
       call 0 = .fail 401 msg →
       executeWithRetry call 0 cache =
         ⟨.error "Your Google session has expired. Please sign in again.",
          [], emptyGmailCache⟩)
  ∧ (∀ (call : Nat → ApiOutcome) (cache : GmailCache),
       (∀ i m, call i ≠ .fail 401 m) →
       (executeWithRetry call 0 cache).cache = cache)
  ∧ (∀ (call : Nat → ApiOutcome) (retryAfter : Nat → Option Nat)
       (tok : Option String) (cache : TeamsCache) (msg : String),
       jsTruthy tok = true → call 0 = .fail 401 msg →
       executeGraphAPICall tok call retryAfter 0 cache =
         ⟨.error "Your Microsoft session has expired. Please sign in again.",
          [], emptyTeamsCache⟩)
  ∧ (∀ (call : Nat → ApiOutcome) (retryAfter : Nat → Option Nat)
       (tok : Option String) (cache : TeamsCache),
       jsTruthy tok = true → (∀ i m, call i ≠ .fail 401 m) →
       (executeGraphAPICall tok call retryAfter 0 cache).cache = cache) := by
  refine ⟨gmail_401_clears, ?_, teams_401_clears, ?_⟩
  · intro call cache hno
    exact gmailRetryAux_cache call hno (MAX_RETRIES - 0) 0 cache
  · intro call retryAfter tok cache htok hno
    rw [executeGraphAPICall, if_neg (by simp [htok])]
    exact teamsRetryAux_cache call retryAfter hno (MAX_RETRIES - 0) 0 cache

/-- C8 (witness): a first-attempt 401 clears the Gmail and Teams caches; a
constant-404 script leaves a nonempty Gmail cache unchanged. -/
theorem session_expiry_cache_reset_witness :
    executeWithRetry (fun _ => .fail 401 "x") 0
        { labels := some "L", labelsExpiry := 9 } =
      ⟨.error "Your Google session has expired. Please sign in again.", [],
       emptyGmailCache⟩
  ∧ executeGraphAPICall (some "t") (fun _ => .fail 401 "x") (fun _ => none)
        0 { chats := some "C", chatsExpiry := 9 } =
      ⟨.error "Your Microsoft session has expired. Please sign in again.",
       [], emptyTeamsCache⟩
  ∧ (executeWithRetry (fun _ => .fail 404 "x") 0
        { labels := some "L", labelsExpiry := 9 }).cache =
      { labels := some "L", labelsExpiry := 9 } :=
  ⟨session_expiry_cache_reset.1 (fun _ => .fail 401 "x")
      { labels := some "L", labelsExpiry := 9 } "x" rfl,
   session_expiry_cache_reset.2.2.1 (fun _ => .fail 401 "x") (fun _ => none)
      (some "t") { chats := some "C", chatsExpiry := 9 } "x" (by decide) rfl,
   session_expiry_cache_reset.2.1 (fun _ => .fail 404 "x")
      { labels := some "L", labelsExpiry := 9 }
      (by
        intro i m h
        injection h with h1 h2
        exact absurd h1 (by decide))⟩

/-- C9: whenever the primary model-based classification fails, the
classifier returns the deterministic keyword fallback: fixed per-domain
keyword lists matched case-insensitively against the message, confidence
forced to low; the result does not depend on the conversation history, so
two failing invocations with the same message agree on the domain flags. -/
theorem classifier_fallback_deterministic :
    ∀ (message : String),
      (∀ (primary : String → List String →
           Except String RawClassification)
         (history : List String) (e : String),
         primary message history = .error e →
         classifyQueryWithAI primary message history =
           fallbackClassify message)
    ∧ fallbackClassify message =
        { isEmail := emailKeywords.any
            (fun k => jsIncludes (jsToLower message) k),
          isTeams := teamsKeywords.any
            (fun k => jsIncludes (jsToLower message) k),
          confidence := "low",
          reasoning := "Fallback keyword matching due to AI error" }
    ∧ (∀ (p1 p2 : String → List String → Except String RawClassification)
         (h1 h2 : List String) (e1 e2 : String),
         p1 message h1 = .error e1 → p2 message h2 = .error e2 →
         classifyQueryWithAI p1 message h1 =
           classifyQueryWithAI p2 message h2) := by
  intro message
  refine ⟨?_, rfl, ?_⟩
  · intro primary history e h
    simp [classifyQueryWithAI, h]
  · intro p1 p2 h1 h2 e1 e2 ha hb
    simp [classifyQueryWithAI, ha, hb]

/-- C9 (witness): the fallback at a concrete message under two different
histories: confidence low, email flag set by the keyword `email`, Teams
flag unset, identical results. -/
theorem classifier_fallback_witness :
    classifyQueryWithAI (fun _ _ => .error "boom")
        "Check my EMAIL please" [] =
      fallbackClassify "Check my EMAIL please"
  ∧ fallbackClassify "Check my EMAIL please" =
      { isEmail := emailKeywords.any
          (fun k => jsIncludes (jsToLower "Check my EMAIL please") k),
        isTeams := teamsKeywords.any
          (fun k => jsIncludes (jsToLower "Check my EMAIL please") k),
        confidence := "low",
        reasoning := "Fallback keyword matching due to AI error" }
  ∧ classifyQueryWithAI (fun _ _ => .error "boom")
        "Check my EMAIL please" ["earlier turn"] =
      classifyQueryWithAI (fun _ _ => .error "network down")
        "Check my EMAIL please" [] :=
  ⟨(classifier_fallback_deterministic "Check my EMAIL please").1
      (fun _ _ => .error "boom") [] "boom" rfl,
   (classifier_fallback_deterministic "Check my EMAIL please").2.1,
   (classifier_fallback_deterministic "Check my EMAIL please").2.2
      (fun _ _ => .error "boom") (fun _ _ => .error "network down")
      ["earlier turn"] [] "boom" "network down" rfl rfl⟩

/-- C10: every error thrown inside a server's tool switch — the unknown
tool case or a failing tool method — is returned as an ordinary tool
result with `isError = true` whose single text segment is the JSON object
`{error, message, tool}`; consequently, with the real client executor the
orchestration loop's tool-error catch branch (mode `error` with
`success = true`) is never produced, and the error payload flows onward as
data. -/
theorem tool_errors_become_results :
    (∀ (impl : String → Except String ToolResult) (name : String),
       gmailToolNames.contains name = false →
       serverCallTool gmailToolNames impl name =
         ⟨[.errJson ⟨true, "Unknown tool: " ++ name, name⟩], true⟩)
  ∧ (∀ (impl : String → Except String ToolResult) (name : String),
       teamsToolNames.contains name = false →
       serverCallTool teamsToolNames impl name =
         ⟨[.errJson ⟨true, "Unknown tool: " ++ name, name⟩], true⟩)
  ∧ (∀ (names : List String) (impl : String → Except String ToolResult)
       (name msg : String),
       name ∈ names → impl name = .error msg →
       serverCallTool names impl name =
         ⟨[.errJson ⟨true, msg, name⟩], true⟩)
  ∧ (∀ (gi ti : String → Except String ToolResult) (pp : String)
       (tokens : Tokens) (planner : Nat → NextStepOutcome) (d : Decision),
       pp = "gmail" ∨ pp = "teams" →
       (handleDecision pp tokens (mcpExec gi ti) planner d).response.mode =
         "error" →
       (handleDecision pp tokens
         (mcpExec gi ti) planner d).response.success = false) := by
  refine ⟨?_, ?_, ?_, ?_⟩
  · intro impl name h
    have hm : ¬ name ∈ gmailToolNames := by simpa using h
    simp [serverCallTool, hm]
  · intro impl name h
    have hm : ¬ name ∈ teamsToolNames := by simpa using h
    simp [serverCallTool, hm]
  · intro names impl name msg hmem himpl
    simp [serverCallTool, hmem, himpl]
  · intro gi ti pp tokens planner d hpp
    exact handle_no_catch gi ti pp tokens planner d hpp

/-- C10 (witness): the unknown-tool wrapping on both servers, a thrown
tool-method error wrapped as a result, and the no-catch property of a
concrete run whose tool method throws. -/
theorem tool_errors_become_results_witness :
    serverCallTool gmailToolNames (fun _ => .ok ⟨[], false⟩) "nope" =
      ⟨[.errJson ⟨true, "Unknown tool: " ++ "nope", "nope"⟩], true⟩
  ∧ serverCallTool teamsToolNames (fun _ => .ok ⟨[], false⟩) "nope2" =
      ⟨[.errJson ⟨true, "Unknown tool: " ++ "nope2", "nope2"⟩], true⟩
  ∧ serverCallTool gmailToolNames (fun _ => .error "boom")
        "gmail_get_profile" =
      ⟨[.errJson ⟨true, "boom", "gmail_get_profile"⟩], true⟩
  ∧ ((handleDecision "gmail"
        { googleAccessToken := some "g", microsoftAccessToken := some "m" }
        (mcpExec (fun _ => .error "boom") (fun _ => .error "boom"))
        (fun _ => .parseFail)
        { needsTool := true,
          toolName := "gmail_get_profile" }).response.mode = "error" →
      (handleDecision "gmail"
        { googleAccessToken := some "g", microsoftAccessToken := some "m" }
        (mcpExec (fun _ => .error "boom") (fun _ => .error "boom"))
        (fun _ => .parseFail)
        { needsTool := true,
          toolName := "gmail_get_profile" }).response.success = false) :=
  ⟨tool_errors_become_results.1 (fun _ => .ok ⟨[], false⟩) "nope"
      (by decide),
   tool_errors_become_results.2.1 (fun _ => .ok ⟨[], false⟩) "nope2"
      (by decide),
   tool_errors_become_results.2.2.1 gmailToolNames (fun _ => .error "boom")
      "gmail_get_profile" "boom" (by decide) rfl,
   tool_errors_become_results.2.2.2 (fun _ => .error "boom")
      (fun _ => .error "boom") "gmail"
      { googleAccessToken := some "g", microsoftAccessToken := some "m" }
      (fun _ => .parseFail)
      { needsTool := true, toolName := "gmail_get_profile" }
      (Or.inl rfl)⟩

end MCPServer
